import Mathlib

/- Verification development for the browser quiz application: the
   question-acquisition pipeline of `src/services/aiService.js`
   (remote generation with validation, fallback to the static mock bank,
   Fisher-Yates shuffle) and the quiz session state machine of
   `App.jsx` / `Components/QuizDisplay/QuizDisplay.jsx`. -/

namespace QuizApp

/- ### JavaScript string trimming (`String.prototype.trim`)

   Modelled on the common whitespace characters; the bank data and all
   inputs of interest only involve spaces, tabs and newlines. -/

def isJsWhitespace (c : Char) : Bool :=
  c = ' ' || c = '\t' || c = '\n' || c = '\r' || c = '\x0b' || c = '\x0c'

def jsTrimList (l : List Char) : List Char :=
  ((l.dropWhile isJsWhitespace).reverse.dropWhile isJsWhitespace).reverse

def jsTrim (s : String) : String := String.mk (jsTrimList s.data)

theorem dropWhile_idem {α} (p : α → Bool) (l : List α) :
    (l.dropWhile p).dropWhile p = l.dropWhile p := by
  induction l with
  | nil => rfl
  | cons a t ih =>
    by_cases h : p a
    · simp [List.dropWhile_cons, h, ih]
    · simp [List.dropWhile_cons, h]

theorem dropWhile_eq_self_of_head {α} (p : α → Bool) (l : List α)
    (h : ∀ x, l.head? = some x → p x = false) : l.dropWhile p = l := by
  cases l with
  | nil => rfl
  | cons a t => simp [List.dropWhile_cons, h a rfl]

theorem head?_dropWhile_false {α} (p : α → Bool) (l : List α) (x : α)
    (hx : (l.dropWhile p).head? = some x) : p x = false := by
  have h := List.head?_dropWhile_not p l
  rw [hx] at h
  exact h

theorem getLast?_dropWhile_ne_nil {α} (p : α → Bool) (l : List α)
    (h : l.dropWhile p ≠ []) : (l.dropWhile p).getLast? = l.getLast? := by
  conv_rhs => rw [← List.takeWhile_append_dropWhile (p := p) (l := l)]
  exact (List.getLast?_append_of_ne_nil _ h).symm

theorem jsTrimList_idem (l : List Char) :
    jsTrimList (jsTrimList l) = jsTrimList l := by
  set p := isJsWhitespace with hp
  set m := l.dropWhile p with hm
  set d := m.reverse.dropWhile p with hd
  have hr : jsTrimList l = d.reverse := rfl
  rw [hr]
  have hdrop : d.reverse.dropWhile p = d.reverse := by
    apply dropWhile_eq_self_of_head
    intro x hx
    rcases hdn : d with _ | _
    · rw [hdn] at hx; simp at hx
    · have hne : d ≠ [] := by rw [hdn]; simp
      have h1 : d.reverse.head? = d.getLast? := List.head?_reverse d
      have h2 : d.getLast? = m.reverse.getLast? :=
        getLast?_dropWhile_ne_nil p m.reverse hne
      have h3 : m.reverse.getLast? = m.head? := List.getLast?_reverse m
      have hx' : m.head? = some x := by
        rw [← h3, ← h2, ← h1]; exact hx
      exact head?_dropWhile_false p l x hx'
  show ((d.reverse.dropWhile p).reverse.dropWhile p).reverse = d.reverse
  rw [hdrop, List.reverse_reverse]
  have : d.dropWhile p = d := by
    rw [hd]; exact dropWhile_idem p m.reverse
  rw [this]

theorem jsTrim_idem (s : String) : jsTrim (jsTrim s) = jsTrim s :=
  congrArg String.mk (jsTrimList_idem s.data)

/- ### Data model

   `JsVal` models the dynamically-typed values a raw remote candidate can
   carry in its fields (the validator inspects them with `typeof` /
   `Array.isArray` checks).  JavaScript numbers are modelled as rationals;
   `NaN` is outside the model (no claim involves it). -/

inductive JsVal where
  | str (s : String)
  | num (q : ℚ)
  | arr (elems : List JsVal)
  | boolean (b : Bool)
  | nullVal
  | undef

def JsVal.isStr : JsVal → Bool
  | .str _ => true
  | _ => false

def JsVal.strVal : JsVal → String
  | .str s => s
  | _ => ""

def JsVal.isArr : JsVal → Bool
  | .arr _ => true
  | _ => false

def JsVal.arrVal : JsVal → List JsVal
  | .arr l => l
  | _ => []

def JsVal.isNum : JsVal → Bool
  | .num _ => true
  | _ => false

def JsVal.numVal : JsVal → ℚ
  | .num x => x
  | _ => 0

/- A validated, normalized question (shape shared by the validator output
   and the static mock bank entries). -/
structure Question where
  question : String
  options : List String
  correctAnswer : ℚ
  explanation : String
deriving DecidableEq

/- A raw candidate object from the remote response, before validation. -/
structure Candidate where
  question : JsVal
  options : JsVal
  correctAnswer : JsVal
  explanation : JsVal

/- The validation errors, identifying the offending field
   (mirroring the thrown `Error` messages in `generateQuizQuestions`). -/
inductive VError where
  | questionText
  | optionsCount
  | optionsString
  | correctAnswerRange
  | explanationText
deriving DecidableEq

/- ### The Question Validator

   Embeds the per-candidate validation block of `generateQuizQuestions`
   (aiService.js lines 119-143), one `if` per `throw`:

     if (!q.question || typeof q.question !== 'string') throw ...
     if (!Array.isArray(q.options) || q.options.length !== 4) throw ...
     if (q.options.some(opt => typeof opt !== 'string')) throw ...
     if (typeof q.correctAnswer !== 'number' || q.correctAnswer < 0
         || q.correctAnswer > 3) throw ...
     if (!q.explanation || typeof q.explanation !== 'string') throw ...
     return { question: q.question.trim(),
              options: q.options.map(opt => opt.trim()),
              correctAnswer: q.correctAnswer,
              explanation: q.explanation.trim() }

   A value passes `!v || typeof v !== 'string'` exactly when it is a
   string other than `""` (the sole falsy string), so the first check
   rejects a missing/non-string/empty `question` but accepts a
   whitespace-only one; likewise for `explanation`. -/
def validateQuestion (c : Candidate) : Except VError Question :=
  if ¬ (c.question.isStr = true ∧ c.question.strVal ≠ "") then
    .error .questionText
  else if ¬ (c.options.isArr = true ∧ c.options.arrVal.length = 4) then
    .error .optionsCount
  else if c.options.arrVal.any (fun o => !o.isStr) then
    .error .optionsString
  else if ¬ (c.correctAnswer.isNum = true ∧
      ¬ (c.correctAnswer.numVal < 0 ∨ 3 < c.correctAnswer.numVal)) then
    .error .correctAnswerRange
  else if ¬ (c.explanation.isStr = true ∧ c.explanation.strVal ≠ "") then
    .error .explanationText
  else
    .ok ⟨jsTrim c.question.strVal,
      c.options.arrVal.map (fun o => jsTrim o.strVal),
      c.correctAnswer.numVal,
      jsTrim c.explanation.strVal⟩

/- Reinjection of a normalized Question as a raw candidate (used to state
   that a Question "passes the Validator" / round-trips). -/
def Question.toCandidate (q : Question) : Candidate :=
  ⟨.str q.question, .arr (q.options.map .str), .num q.correctAnswer,
    .str q.explanation⟩

/- ### Fisher-Yates shuffle (aiService.js `shuffleArray`)

     const shuffled = [...array];
     for (let i = shuffled.length - 1; i > 0; i--) {
       const j = Math.floor(Math.random() * (i + 1));
       [shuffled[i], shuffled[j]] = [shuffled[j], shuffled[i]];
     }
     return shuffled;

   The random draw `Math.floor(Math.random() * (i + 1))`, a uniform
   integer in [0, i], is modelled as `rand i % (i + 1)` for an arbitrary
   random source `rand`. -/

def swapIdx {α} (l : List α) (i j : Nat) : List α :=
  match l[i]?, l[j]? with
  | some a, some b => (l.set i b).set j a
  | _, _ => l

def fisherYatesAux {α} (rand : Nat → Nat) : List α → Nat → List α
  | l, 0 => l
  | l, i+1 => fisherYatesAux rand (swapIdx l (i+1) (rand (i+1) % (i+1+1))) i

def shuffleArray {α} (rand : Nat → Nat) (l : List α) : List α :=
  fisherYatesAux rand l (l.length - 1)

/- Pulling an element to the front is a permutation. -/
theorem cons_perm_set {α} : ∀ (t : List α) (m : Nat) (x b : α),
    t[m]? = some b → List.Perm (x :: t) (b :: t.set m x) := by
  intro t
  induction t with
  | nil => intro m x b h; simp at h
  | cons y t' ih =>
    intro m x b h
    cases m with
    | zero =>
      simp only [List.getElem?_cons_zero, Option.some.injEq] at h
      subst h
      simpa using List.Perm.swap y x t'
    | succ k =>
      simp only [List.getElem?_cons_succ] at h
      have step := ih k x b h
      simp only [List.set_cons_succ]
      have t1 : List.Perm (x :: y :: t') (y :: x :: t') := List.Perm.swap y x t'
      have t2 : List.Perm (y :: x :: t') (y :: b :: t'.set k x) := step.cons y
      have t3 : List.Perm (y :: b :: t'.set k x) (b :: y :: t'.set k x) :=
        List.Perm.swap b y (t'.set k x)
      exact t1.trans (t2.trans t3)

theorem swapIdx_perm {α} : ∀ (l : List α) (i j : Nat),
    List.Perm (swapIdx l i j) l := by
  intro l
  induction l with
  | nil => intro i j; simp [swapIdx]
  | cons x t ih =>
    intro i j
    cases i with
    | zero =>
      cases j with
      | zero => simp [swapIdx]
      | succ k =>
        cases hk : t[k]? with
        | none => simp [swapIdx, hk]
        | some b =>
          simp only [swapIdx, List.getElem?_cons_zero, List.getElem?_cons_succ,
            hk, List.set_cons_zero, List.set_cons_succ]
          exact (cons_perm_set t k x b hk).symm
    | succ m =>
      cases hm : t[m]? with
      | none => simp [swapIdx, hm]
      | some a =>
        cases j with
        | zero =>
          simp only [swapIdx, List.getElem?_cons_succ, List.getElem?_cons_zero,
            hm, List.set_cons_succ, List.set_cons_zero]
          exact (cons_perm_set t m x a hm).symm
        | succ k =>
          cases hk : t[k]? with
          | none => simp [swapIdx, hm, hk]
          | some b =>
            have step := ih m k
            simp only [swapIdx, hm, hk] at step
            simp only [swapIdx, List.getElem?_cons_succ, hm, hk,
              List.set_cons_succ]
            exact step.cons x

theorem fisherYatesAux_perm {α} (rand : Nat → Nat) :
    ∀ (n : Nat) (l : List α), List.Perm (fisherYatesAux rand l n) l := by
  intro n
  induction n with
  | zero => intro l; simp [fisherYatesAux]
  | succ i ih =>
    intro l
    exact (ih _).trans (swapIdx_perm l (i+1) (rand (i+1) % (i+1+1)))

theorem shuffleArray_perm {α} (rand : Nat → Nat) (l : List α) :
    List.Perm (shuffleArray rand l) l :=
  fisherYatesAux_perm rand (l.length - 1) l


/- ### The static mock-question bank (aiService.js `generateMockQuestions`)

   Two revisions of `generateMockQuestions` exist in the source.  The
   primary one keys the bank by subject and difficulty, shuffles the
   selected list and returns its first 5 entries; the earlier flat one
   keys by subject only and returns the list as-is.  Both banks are
   embedded verbatim. -/

def dataStructuresEasy : List Question := [
  ⟨"Which data structure uses LIFO (Last In First Out) principle?", ["Queue", "Stack", "Tree", "Graph"], 1, "Stack follows LIFO principle where the last element inserted is removed first."⟩,
  ⟨"What is an array?", ["A list of elements", "A collection of elements of the same type stored in contiguous memory", "A function", "A variable"], 1, "An array is a data structure that stores elements of the same type in contiguous memory locations."⟩,
  ⟨"Which data structure uses FIFO (First In First Out) principle?", ["Stack", "Queue", "Tree", "Graph"], 1, "Queue follows FIFO principle where the first element inserted is removed first."⟩,
  ⟨"What is a linked list?", ["A list with links", "A data structure where elements are connected using pointers", "An array", "A tree"], 1, "A linked list is a data structure where each element (node) contains data and a reference to the next node."⟩,
  ⟨"What is the main advantage of using a linked list over an array?", ["Faster access", "Dynamic size", "Less memory", "No sorting needed"], 1, "Linked lists have dynamic size and can easily insert/delete elements without resizing."⟩
]

def dataStructuresMedium : List Question := [
  ⟨"What is the time complexity of inserting an element at the beginning of a linked list?", ["O(n)", "O(log n)", "O(1)", "O(n²)"], 2, "Insertion at the beginning of a linked list is O(1) because we only need to update pointers."⟩,
  ⟨"What is the space complexity of a balanced binary search tree with n nodes?", ["O(1)", "O(log n)", "O(n)", "O(n²)"], 2, "A balanced BST with n nodes requires O(n) space to store all nodes."⟩,
  ⟨"Which of the following is NOT a linear data structure?", ["Array", "Stack", "Queue", "Tree"], 3, "Tree is a non-linear data structure, while Array, Stack, and Queue are linear."⟩,
  ⟨"What is the time complexity of searching in a hash table?", ["O(n)", "O(log n)", "O(1) average case", "O(n²)"], 2, "Hash table provides O(1) average case time complexity for search operations."⟩,
  ⟨"What is a binary tree?", ["A tree with 2 elements", "A tree where each node has at most 2 children", "A tree with 2 levels", "A sorted tree"], 1, "A binary tree is a tree structure where each node has at most two children (left and right)."⟩
]

def dataStructuresHard : List Question := [
  ⟨"What is the time complexity of inserting an element in a balanced AVL tree?", ["O(1)", "O(log n)", "O(n)", "O(n log n)"], 1, "AVL trees maintain balance, ensuring O(log n) insertion time complexity."⟩,
  ⟨"What is the difference between a heap and a binary search tree?", ["No difference", "Heap is for searching, BST is for sorting", "Heap maintains heap property, BST maintains ordering property", "Heap is faster"], 2, "Heaps satisfy the heap property (parent-child ordering), while BSTs maintain left < parent < right ordering."⟩,
  ⟨"What is the time complexity of finding the k-th smallest element in a BST?", ["O(1)", "O(log n)", "O(n)", "O(k log n)"], 2, "Finding k-th smallest requires traversal, giving O(n) worst-case time complexity."⟩,
  ⟨"What are the advantages of using a skip list?", ["Simpler than BST", "Probabilistic balancing with O(log n) operations", "No memory overhead", "Cache friendly"], 1, "Skip lists provide probabilistic balancing and achieve O(log n) search time without complex rotations."⟩,
  ⟨"What is a self-balancing BST?", ["A BST that sorts itself", "A BST that maintains balance through rotations to ensure O(log n) operations", "A BST with 2 children", "A readonly BST"], 1, "Self-balancing BSTs (like AVL, Red-Black) automatically rebalance to maintain O(log n) complexity."⟩
]

def algorithmsEasy : List Question := [
  ⟨"What is a sorting algorithm?", ["A program", "A method to arrange elements in order", "A search function", "A loop"], 1, "A sorting algorithm is a step-by-step procedure to arrange elements in a specific order."⟩,
  ⟨"Which sorting algorithm compares adjacent elements?", ["Quick Sort", "Merge Sort", "Bubble Sort", "Heap Sort"], 2, "Bubble sort compares adjacent elements and swaps them if they are in wrong order."⟩,
  ⟨"What is the worst-case time complexity of bubble sort?", ["O(n)", "O(n log n)", "O(n²)", "O(2^n)"], 2, "Bubble sort has O(n²) worst-case complexity when the array is in reverse order."⟩,
  ⟨"What is a search algorithm?", ["A sorting method", "A procedure to find an element in a collection", "A loop", "A condition"], 1, "A search algorithm is used to locate a specific element within a data structure."⟩,
  ⟨"What is linear search?", ["Search in a line", "Searching each element sequentially", "Dividing and searching", "Random search"], 1, "Linear search checks each element one by one until the target is found."⟩
]

def algorithmsMedium : List Question := [
  ⟨"What is the time complexity of binary search?", ["O(n)", "O(log n)", "O(n²)", "O(2^n)"], 1, "Binary search has O(log n) complexity as it divides the search space in half each time."⟩,
  ⟨"Which algorithm design paradigm does Merge Sort use?", ["Greedy", "Dynamic Programming", "Divide and Conquer", "Brute Force"], 2, "Merge Sort uses Divide and Conquer by dividing array in half and merging sorted subarrays."⟩,
  ⟨"What is the best case time complexity of quick sort?", ["O(n)", "O(n log n)", "O(n²)", "O(log n)"], 1, "Quick sort has O(n log n) best case when the pivot divides the array equally."⟩,
  ⟨"What is dynamic programming?", ["Programming that changes", "Solving problems by breaking into subproblems and storing results", "Using loops", "Random algorithm"], 1, "Dynamic programming solves complex problems by breaking them into simpler subproblems and memoizing results."⟩,
  ⟨"What is the time complexity of merge sort?", ["O(n)", "O(n log n)", "O(n²)", "O(2^n)"], 1, "Merge sort has O(n log n) time complexity in all cases (best, average, worst)."⟩
]

def algorithmsHard : List Question := [
  ⟨"What is the time complexity of the best implementation of quick sort?", ["O(n)", "O(n log n)", "O(n²)", "O(log n)"], 1, "With good pivot selection, quick sort achieves O(n log n) average case complexity."⟩,
  ⟨"What problem can be solved using the Floyd-Warshall algorithm?", ["Sorting", "All-pairs shortest path", "Searching", "Hashing"], 1, "Floyd-Warshall finds shortest paths between all pairs of vertices in a graph."⟩,
  ⟨"What is memoization in dynamic programming?", ["Writing notes", "Storing results of expensive function calls", "Sorting data", "Searching"], 1, "Memoization stores computed results to avoid redundant calculations, improving efficiency."⟩,
  ⟨"What is a greedy algorithm?", ["An algorithm that sorts", "An algorithm that makes locally optimal choices", "An algorithm for searching", "An algorithm for hashing"], 1, "A greedy algorithm makes locally optimal choices at each step, hoping to find global optimum."⟩,
  ⟨"What is the longest common subsequence (LCS) problem?", ["Finding longest word", "Finding the longest sequence common to two sequences", "Sorting sequences", "Comparing numbers"], 1, "LCS finds the longest subsequence present in both sequences in the same order."⟩
]

def databaseManagementEasy : List Question := [
  ⟨"What is a database?", ["A file", "An organized collection of structured data", "A program", "A server"], 1, "A database is an organized collection of structured data stored and managed efficiently."⟩,
  ⟨"What does SQL stand for?", ["Structured Question Language", "Structured Query Language", "Simple Query Logic", "Sequential Query Language"], 1, "SQL stands for Structured Query Language, used to query and manage databases."⟩,
  ⟨"What is a primary key?", ["A password", "A unique identifier for each record", "A type of key", "A foreign key"], 1, "A primary key is a unique identifier that uniquely identifies each record in a table."⟩,
  ⟨"What is a table?", ["Furniture", "A collection of rows and columns", "A file", "A database"], 1, "A table is a structured collection of data organized in rows (records) and columns (attributes)."⟩,
  ⟨"What is a row in a table?", ["A line", "A single record", "A column", "A database"], 1, "A row represents a single record in a table, containing values for each column."⟩
]

def databaseManagementMedium : List Question := [
  ⟨"What does ACID stand for in database transactions?", ["Atomicity, Consistency, Isolation, Durability", "Access, Control, Index, Data", "Accuracy, Clarity, Index, Data", "Atomicity, Control, Isolation, Durability"], 0, "ACID properties ensure reliable database transactions and data integrity."⟩,
  ⟨"Which normal form eliminates partial dependencies?", ["1NF", "2NF", "3NF", "BCNF"], 1, "2NF (Second Normal Form) eliminates partial dependencies from 1NF."⟩,
  ⟨"What is the purpose of an index in a database?", ["Store data", "Faster data retrieval", "Ensure uniqueness", "Backup data"], 1, "Indexes speed up data retrieval operations by reducing the amount of data to scan."⟩,
  ⟨"What is a foreign key?", ["Primary key in another table", "A key that references primary key in another table", "Duplicate of primary key", "Encrypted key"], 1, "A foreign key is an attribute that references the primary key of another table, maintaining referential integrity."⟩,
  ⟨"What is normalization?", ["Making data normal", "Process of organizing data to reduce redundancy", "Backup process", "Sorting data"], 1, "Normalization is the process of organizing database tables to minimize redundancy and improve data integrity."⟩
]

def databaseManagementHard : List Question := [
  ⟨"What is Boyce-Codd Normal Form (BCNF)?", ["A relaxation of 3NF", "A stricter form of 3NF for every determinant to be a candidate key", "A form of denormalization", "A backup method"], 1, "BCNF is a stricter normal form where every determinant must be a candidate key."⟩,
  ⟨"What is a transaction?", ["A transfer", "A sequence of database operations treated as a single unit", "A query", "An index"], 1, "A transaction is a sequence of operations that must be completed atomically (all or nothing)."⟩,
  ⟨"What is query optimization?", ["Making queries faster", "Process of finding the most efficient way to execute a query", "Backup optimization", "Data compression"], 1, "Query optimization involves selecting the most efficient execution plan for database queries."⟩,
  ⟨"What is a stored procedure?", ["A saved query", "Precompiled code stored in the database for reuse", "A backup", "An index"], 1, "A stored procedure is precompiled database code that performs specific operations and can be called multiple times."⟩,
  ⟨"What is database replication?", ["Copying data", "Maintaining copies of database across multiple systems for redundancy and availability", "Backup", "Compression"], 1, "Database replication creates copies of data across multiple systems to ensure redundancy and high availability."⟩
]

def operatingSystemsEasy : List Question := [
  ⟨"What is an operating system?", ["Software", "System software that manages hardware and provides services to applications", "A program", "A hardware"], 1, "An OS is system software that manages computer hardware and provides services to applications."⟩,
  ⟨"What is a process?", ["A program", "A running instance of a program with its own memory and resources", "A file", "A thread"], 1, "A process is an executing instance of a program with its own memory space and resources."⟩,
  ⟨"What is a thread?", ["A line", "A lightweight unit of execution within a process", "A process", "A program"], 1, "A thread is a lightweight unit of execution that shares memory with other threads in the same process."⟩,
  ⟨"What is CPU scheduling?", ["Fixing CPU", "Allocating CPU time to processes", "Organizing processes", "Sorting processes"], 1, "CPU scheduling determines which process gets to use the CPU at any given time."⟩,
  ⟨"What is virtual memory?", ["RAM", "Extended memory using disk storage", "Cache memory", "ROM"], 1, "Virtual memory uses disk storage to extend available memory, allowing programs larger than physical RAM."⟩
]

def operatingSystemsMedium : List Question := [
  ⟨"Which scheduling algorithm is used in most modern OS?", ["FCFS", "SJF", "Round Robin", "Priority Scheduling"], 2, "Round Robin is commonly used as it provides fairness and prevents starvation."⟩,
  ⟨"What is a deadlock in operating systems?", ["System crash", "Situation where two or more processes wait indefinitely for each other", "Memory full", "CPU overload"], 1, "Deadlock occurs when processes hold resources and wait for resources held by others, causing indefinite wait."⟩,
  ⟨"What is the difference between a process and a thread?", ["No difference", "Process has independent memory, thread shares memory with process", "Thread is faster", "Process is faster"], 1, "Processes have independent memory spaces, while threads within a process share the same memory space."⟩,
  ⟨"What is synchronization?", ["Organizing files", "Coordinating access to shared resources", "Backing up data", "Sorting"], 1, "Synchronization ensures proper coordination of multiple processes accessing shared resources."⟩,
  ⟨"What is a semaphore?", ["A signal", "A synchronization primitive used to control access to shared resources", "A thread", "A process"], 1, "A semaphore is a synchronization primitive that uses counters to manage access to shared resources."⟩
]

def operatingSystemsHard : List Question := [
  ⟨"What is the Banker\x27s algorithm used for?", ["Banking", "Deadlock avoidance", "Scheduling", "Memory management"], 1, "The Banker\x27s algorithm is a deadlock avoidance algorithm that checks if resource allocation is safe."⟩,
  ⟨"What is cache coherence?", ["Logical organization", "Ensuring consistency of data across multiple caches in multiprocessor systems", "Memory management", "Disk caching"], 1, "Cache coherence maintains consistency when multiple processors have copies of the same data."⟩,
  ⟨"What is page replacement?", ["Replacing pages", "Algorithm to decide which page to evict from memory when new page is needed", "Sorting", "Compression"], 1, "Page replacement algorithms decide which page in memory should be replaced when a new page is needed."⟩,
  ⟨"What is context switching?", ["Changing context", "Process of saving and restoring state to switch between processes", "Swapping memory", "Scheduling"], 1, "Context switching saves one process state and loads another, allowing CPU to execute different processes."⟩,
  ⟨"What is a race condition?", ["A competition", "Situation where multiple threads access shared data and result depends on timing", "A deadlock", "A starvation"], 1, "A race condition occurs when multiple threads access shared data and outcome depends on timing of execution."⟩
]

def computerNetworksEasy : List Question := [
  ⟨"What is a computer network?", ["A computer", "Connected computers sharing data and resources", "A wire", "Software"], 1, "A computer network is a system of connected computers that can share data and resources."⟩,
  ⟨"What is the Internet?", ["A computer", "Global system of interconnected networks", "A wire", "A protocol"], 1, "The Internet is a global system of interconnected networks using standardized protocols."⟩,
  ⟨"What is an IP address?", ["A password", "A unique numerical label identifying devices on network", "A domain name", "A URL"], 1, "An IP address is a unique numerical identifier assigned to each device on a network."⟩,
  ⟨"What is a protocol?", ["A procedure", "A set of rules for communication between devices", "A software", "A hardware"], 1, "A protocol is a set of rules that defines how devices communicate over a network."⟩,
  ⟨"What is HTTP?", ["A server", "Hypertext Transfer Protocol for web communication", "A database", "A programming language"], 1, "HTTP is the Hypertext Transfer Protocol used for transferring web pages over the Internet."⟩
]

def computerNetworksMedium : List Question := [
  ⟨"Which layer of OSI model handles routing?", ["Data Link Layer", "Network Layer", "Transport Layer", "Application Layer"], 1, "The Network Layer (Layer 3) is responsible for routing and logical addressing."⟩,
  ⟨"What is the purpose of TCP?", ["Unreliable data transfer", "Reliable, connection-oriented data transfer", "Fast transfer", "Broadcast"], 1, "TCP provides reliable, connection-oriented delivery of data with error checking."⟩,
  ⟨"What is DNS?", ["A server", "Domain Name System that translates domain names to IP addresses", "A protocol", "An IP address"], 1, "DNS (Domain Name System) translates human-readable domain names into IP addresses."⟩,
  ⟨"Which protocol resolves IP addresses to MAC addresses?", ["DHCP", "DNS", "ARP", "IGMP"], 2, "ARP (Address Resolution Protocol) maps IP addresses to MAC addresses."⟩,
  ⟨"What is a firewall?", ["A wall", "Security system monitoring and controlling network traffic", "A router", "A modem"], 1, "A firewall is a security system that monitors and controls incoming and outgoing network traffic."⟩
]

def computerNetworksHard : List Question := [
  ⟨"What is the three-way handshake in TCP?", ["Three connections", "SYN, SYN-ACK, ACK sequence to establish connection", "Three packets", "Three protocols"], 1, "Three-way handshake (SYN, SYN-ACK, ACK) establishes a TCP connection between client and server."⟩,
  ⟨"What is congestion control in TCP?", ["Controlling traffic", "Mechanism to avoid network congestion by adjusting sending rate", "Router function", "Firewall function"], 1, "Congestion control adjusts TCP sending rate to prevent network congestion and packet loss."⟩,
  ⟨"What is a subnet?", ["A network", "A subdivision of IP network with shared network address", "A protocol", "A server"], 1, "A subnet is a logical subdivision of an IP network, allowing better organization and security."⟩,
  ⟨"What is QoS in networking?", ["Quality control", "Quality of Service - ensuring performance levels for network traffic", "A router", "A protocol"], 1, "QoS (Quality of Service) ensures acceptable performance levels for critical network traffic."⟩,
  ⟨"What is NAT?", ["A protocol", "Network Address Translation - translating between private and public IP addresses", "A server", "A firewall"], 1, "NAT (Network Address Translation) allows private IP addresses to communicate with public networks."⟩
]

def webDevelopmentEasy : List Question := [
  ⟨"What does HTML stand for?", ["Hypertext Markup Language", "High Tech Modern Language", "Home Tool Markup Language", "Hyperlinks and Text Markup Language"], 0, "HTML stands for Hypertext Markup Language, used to structure web content."⟩,
  ⟨"What does CSS stand for?", ["Computer Style Sheets", "Cascading Style Sheets", "Creative Style System", "Central Style Script"], 1, "CSS stands for Cascading Style Sheets, used for styling web pages."⟩,
  ⟨"What is JavaScript?", ["A markup language", "A programming language for web interactivity", "A server", "A database"], 1, "JavaScript is a programming language that adds interactivity and dynamic behavior to web pages."⟩,
  ⟨"What is a web browser?", ["A search engine", "Software that displays web pages from the Internet", "A server", "A database"], 1, "A web browser is software that requests, retrieves, and displays web pages from servers."⟩,
  ⟨"What is a tag in HTML?", ["A label", "Markup element enclosed in angle brackets", "An attribute", "A class"], 1, "An HTML tag is a markup element enclosed in < > that defines content and structure."⟩
]

def webDevelopmentMedium : List Question := [
  ⟨"Which is not a valid HTML semantic tag?", ["<header>", "<article>", "<content>", "<section>"], 2, "<content> is not a valid semantic HTML tag. Use <article>, <section>, <header>, <footer>, etc."⟩,
  ⟨"What is the purpose of CSS?", ["Structure content", "Style and layout", "Server-side logic", "Database management"], 1, "CSS (Cascading Style Sheets) is used for styling and layout of web pages."⟩,
  ⟨"What is an API in web development?", ["A design pattern", "Interface for applications to communicate", "Database query", "CSS framework"], 1, "API (Application Programming Interface) allows applications to request and exchange data."⟩,
  ⟨"Which HTTP method is used to retrieve data?", ["POST", "GET", "DELETE", "PUT"], 1, "GET method is used to retrieve data from a server without modifying it."⟩,
  ⟨"What is a responsive design?", ["Fast design", "Web design that adapts to different screen sizes", "Colorful design", "Interactive design"], 1, "Responsive design ensures web pages look and function well on all devices and screen sizes."⟩
]

def webDevelopmentHard : List Question := [
  ⟨"What is a progressive web app (PWA)?", ["A slow app", "Web app with features like offline support and installability", "A heavy app", "A simple website"], 1, "A PWA is a web application with features like offline functionality, push notifications, and installability."⟩,
  ⟨"What is event delegation in JavaScript?", ["Assigning tasks", "Technique of handling events on parent instead of target elements", "Creating events", "Managing events"], 1, "Event delegation attaches listeners to parent elements to handle events from child elements efficiently."⟩,
  ⟨"What is CORS?", ["A framework", "Cross-Origin Resource Sharing - mechanism for accessing resources from different origins", "A library", "A tool"], 1, "CORS (Cross-Origin Resource Sharing) allows restricted resources on different origins to be accessed."⟩,
  ⟨"What is a web worker?", ["A person", "JavaScript running in background thread without blocking main thread", "A server", "A database"], 1, "Web workers allow running JavaScript in background threads for heavy computations without blocking the UI."⟩,
  ⟨"What is webpack?", ["A framework", "Module bundler for packaging JavaScript and other assets", "A library", "A server"], 1, "Webpack is a module bundler that bundles JavaScript, CSS, and other assets for production."⟩
]

def cloudComputingEasy : List Question := [
  ⟨"What is cloud computing?", ["Computing in clouds", "Computing services delivered over the Internet", "A server", "A program"], 1, "Cloud computing provides computing services (servers, storage, databases) over the Internet."⟩,
  ⟨"What does IaaS stand for?", ["Infrastructure as a Service", "Integration as a Service", "Information as a Service", "Internet as a Service"], 0, "IaaS provides virtualized computing resources over the internet (e.g., AWS, Azure VMs)."⟩,
  ⟨"What does PaaS stand for?", ["Platform as a Service", "Process as a Service", "Program as a Service", "Protocol as a Service"], 0, "PaaS provides platforms for building and deploying applications over the Internet."⟩,
  ⟨"What does SaaS stand for?", ["Software as a Service", "Server as a Service", "Storage as a Service", "Security as a Service"], 0, "SaaS delivers software applications over the Internet (e.g., Gmail, Office 365)."⟩,
  ⟨"What is a cloud provider?", ["A company", "Company that offers cloud computing services", "An Internet provider", "A server"], 1, "A cloud provider is a company offering cloud computing services and infrastructure."⟩
]

def cloudComputingMedium : List Question := [
  ⟨"Which cloud service model provides the most control?", ["SaaS", "PaaS", "IaaS", "All are same"], 2, "IaaS provides the most control as users manage OS, middleware, and applications."⟩,
  ⟨"What is containerization?", ["Storing data in containers", "Packaging applications with dependencies", "Cloud storage", "Network isolation"], 1, "Containerization packages applications with their dependencies for consistent deployment."⟩,
  ⟨"What is auto-scaling in cloud?", ["Manual scaling", "Automatically adjusting resources based on demand", "Slow scaling", "Scaling code"], 1, "Auto-scaling automatically adjusts computing resources to meet demand changes."⟩,
  ⟨"What is load balancing?", ["Balancing loads", "Distributing traffic across multiple servers", "Organizing files", "Sorting servers"], 1, "Load balancing distributes network traffic across multiple servers for optimal performance."⟩,
  ⟨"What is multi-tenancy?", ["Multiple clouds", "Multiple users sharing same resources", "Multiple databases", "Multiple servers"], 1, "Multi-tenancy allows multiple customers to share the same cloud resources safely."⟩
]

def cloudComputingHard : List Question := [
  ⟨"What is serverless computing?", ["No server needed", "Cloud computing without managing infrastructure", "A server", "No code needed"], 1, "Serverless computing allows running code without provisioning or managing servers."⟩,
  ⟨"What is edge computing?", ["Computing at edges", "Processing data closer to source for reduced latency", "Cloud computing", "Central computing"], 1, "Edge computing processes data near the source (edge) rather than centralized data centers."⟩,
  ⟨"What is hybrid cloud?", ["Cloud only", "Mix of public and private cloud resources", "Private cloud", "On-premise only"], 1, "Hybrid cloud combines public cloud services with private on-premise infrastructure."⟩,
  ⟨"What is cloud federation?", ["Multiple clouds", "Interconnecting multiple cloud providers for unified service", "Single cloud", "Distributed cloud"], 1, "Cloud federation connects multiple cloud providers to create unified, integrated service."⟩,
  ⟨"What is infrastructure as code (IaC)?", ["Coding infrastructure", "Managing infrastructure using code and version control", "Cloud API", "Manual configuration"], 1, "IaC manages infrastructure by writing code instead of manual configuration (e.g., Terraform)."⟩
]

def devOpsEasy : List Question := [
  ⟨"What is DevOps?", ["Development operation", "Combining development and operations for continuous improvement", "A tool", "A language"], 1, "DevOps is a practice combining development and operations for faster, reliable software delivery."⟩,
  ⟨"What does CI stand for?", ["Continuous Integration", "Code Integration", "Central Interface", "Computer Integration"], 0, "CI (Continuous Integration) involves automatically integrating and testing code changes."⟩,
  ⟨"What does CD stand for?", ["Continuous Deployment", "Code Deployment", "Central Data", "Computer Deployment"], 0, "CD (Continuous Deployment) automatically deploys tested code to production."⟩,
  ⟨"What is Docker?", ["Documentation", "Platform for containerizing applications", "Database", "Version control"], 1, "Docker is a containerization platform that packages applications with dependencies."⟩,
  ⟨"What is a container?", ["A box", "Lightweight package containing application and dependencies", "A VM", "A server"], 1, "A container is a lightweight, standalone package that includes application and all dependencies."⟩
]

def devOpsMedium : List Question := [
  ⟨"What does CI/CD stand for?", ["Continuous Integration/Continuous Deployment", "Code Integration/Code Deployment", "Central Interface/Central Data", "Continuous Interface/Continuous Data"], 0, "CI/CD automates integration, testing, and deployment of code changes."⟩,
  ⟨"What is Kubernetes?", ["Container registry", "Container orchestration platform", "Monitoring tool", "CI/CD platform"], 1, "Kubernetes automates deployment, scaling, and management of containerized applications."⟩,
  ⟨"What is infrastructure as code (IaC)?", ["Coding standards", "Managing infrastructure using code", "Cloud API", "Database scripts"], 1, "IaC manages infrastructure through code (e.g., Terraform, CloudFormation) instead of manual processes."⟩,
  ⟨"Which is a configuration management tool?", ["Docker", "Kubernetes", "Ansible", "Git"], 2, "Ansible is an IaC and configuration management tool for automating infrastructure tasks."⟩,
  ⟨"What is monitoring in DevOps?", ["Watching", "Continuously observing system health and performance", "Logging", "Testing"], 1, "Monitoring tracks system performance, availability, and alerts to issues in real-time."⟩
]

def devOpsHard : List Question := [
  ⟨"What is blue-green deployment?", ["Color deployment", "Running two identical environments for zero-downtime deployment", "Gradual deployment", "Rollback mechanism"], 1, "Blue-green deployment uses two identical environments to switch between versions with zero downtime."⟩,
  ⟨"What is canary deployment?", ["Bird deployment", "Gradual rollout to small user percentage before full deployment", "Random deployment", "Instant deployment"], 1, "Canary deployment gradually rolls out changes to a small user subset to detect issues early."⟩,
  ⟨"What is a microservice architecture?", ["Small services", "Building applications as loosely coupled, independently deployable services", "One big service", "Monolithic"], 1, "Microservices break applications into small, independent services that communicate via APIs."⟩,
  ⟨"What is service mesh?", ["Network of services", "Infrastructure for managing service-to-service communication", "API gateway", "Load balancer"], 1, "Service mesh manages inter-service communication with features like load balancing and security."⟩,
  ⟨"What is GitOps?", ["Git operations", "Using Git as single source of truth for infrastructure and deployment", "Version control", "Git strategy"], 1, "GitOps treats infrastructure as code in Git, automating deployment through Git workflows."⟩
]

def mockQuestionsBank : List (String × List (String × List Question)) := [
  ("Data Structures", [("easy", dataStructuresEasy), ("medium", dataStructuresMedium), ("hard", dataStructuresHard)]),
  ("Algorithms", [("easy", algorithmsEasy), ("medium", algorithmsMedium), ("hard", algorithmsHard)]),
  ("Database Management", [("easy", databaseManagementEasy), ("medium", databaseManagementMedium), ("hard", databaseManagementHard)]),
  ("Operating Systems", [("easy", operatingSystemsEasy), ("medium", operatingSystemsMedium), ("hard", operatingSystemsHard)]),
  ("Computer Networks", [("easy", computerNetworksEasy), ("medium", computerNetworksMedium), ("hard", computerNetworksHard)]),
  ("Web Development", [("easy", webDevelopmentEasy), ("medium", webDevelopmentMedium), ("hard", webDevelopmentHard)]),
  ("Cloud Computing", [("easy", cloudComputingEasy), ("medium", cloudComputingMedium), ("hard", cloudComputingHard)]),
  ("DevOps", [("easy", devOpsEasy), ("medium", devOpsMedium), ("hard", devOpsHard)])
]

def dataStructuresFlat : List Question := [
  ⟨"What is the time complexity of inserting an element at the beginning of a linked list?", ["O(n)", "O(log n)", "O(1)", "O(n²)"], 2, "Insertion at the beginning of a linked list is O(1) because we only need to update pointers."⟩,
  ⟨"Which data structure uses LIFO (Last In First Out) principle?", ["Queue", "Stack", "Tree", "Graph"], 1, "Stack follows LIFO principle where the last element inserted is removed first."⟩,
  ⟨"What is the space complexity of a balanced binary search tree with n nodes?", ["O(1)", "O(log n)", "O(n)", "O(n²)"], 2, "A balanced BST with n nodes requires O(n) space to store all nodes."⟩,
  ⟨"Which of the following is NOT a linear data structure?", ["Array", "Stack", "Queue", "Tree"], 3, "Tree is a non-linear data structure, while Array, Stack, and Queue are linear."⟩,
  ⟨"What is the best case time complexity of bubble sort?", ["O(n)", "O(n log n)", "O(n²)", "O(2^n)"], 0, "Bubble sort has O(n) best case when the array is already sorted."⟩
]

def algorithmsFlat : List Question := [
  ⟨"What is the time complexity of binary search?", ["O(n)", "O(log n)", "O(n²)", "O(2^n)"], 1, "Binary search has O(log n) complexity as it divides the search space in half each time."⟩,
  ⟨"Which algorithm design paradigm does Merge Sort use?", ["Greedy", "Dynamic Programming", "Divide and Conquer", "Brute Force"], 2, "Merge Sort uses Divide and Conquer by dividing array in half and merging sorted subarrays."⟩,
  ⟨"What is the space complexity of quicksort in-place?", ["O(1)", "O(log n)", "O(n)", "O(n²)"], 1, "In-place quicksort has O(log n) space complexity due to recursive call stack."⟩,
  ⟨"Which of the following has the worst time complexity?", ["Merge Sort", "Quick Sort", "Bubble Sort", "Heap Sort"], 2, "Bubble Sort has O(n²) worst-case complexity, while others have O(n log n)."⟩,
  ⟨"Dynamic Programming is useful for problems with which property?", ["No overlapping subproblems", "Optimal substructure", "Random nature", "Single solution"], 1, "DP is useful for problems with optimal substructure where optimal solution uses optimal solutions of subproblems."⟩
]

def databaseManagementFlat : List Question := [
  ⟨"What does ACID stand for in database transactions?", ["Atomicity, Consistency, Isolation, Durability", "Access, Control, Index, Data", "Accuracy, Clarity, Index, Data", "Atomicity, Control, Isolation, Durability"], 0, "ACID properties ensure reliable database transactions and data integrity."⟩,
  ⟨"Which normal form eliminates partial dependencies?", ["1NF", "2NF", "3NF", "BCNF"], 1, "2NF (Second Normal Form) eliminates partial dependencies from 1NF."⟩,
  ⟨"What is the purpose of an index in a database?", ["Store data", "Faster data retrieval", "Ensure uniqueness", "Backup data"], 1, "Indexes speed up data retrieval operations by reducing the amount of data to scan."⟩,
  ⟨"Which SQL command is used to retrieve data?", ["INSERT", "DELETE", "SELECT", "UPDATE"], 2, "SELECT command is used to retrieve data from database tables."⟩,
  ⟨"What is a foreign key?", ["Primary key in another table", "A key that references primary key in another table", "Duplicate of primary key", "Encrypted key"], 1, "A foreign key is an attribute that references the primary key of another table, maintaining referential integrity."⟩
]

def operatingSystemsFlat : List Question := [
  ⟨"What is a process in an operating system?", ["A program", "A running instance of a program", "A system call", "A thread"], 1, "A process is an executing instance of a program with its own memory space and resources."⟩,
  ⟨"Which scheduling algorithm is used in most modern OS?", ["FCFS", "SJF", "Round Robin", "Priority Scheduling"], 2, "Round Robin is commonly used as it provides fairness and prevents starvation."⟩,
  ⟨"What is a deadlock in operating systems?", ["System crash", "Situation where two or more processes wait indefinitely for each other", "Memory full", "CPU overload"], 1, "Deadlock occurs when processes hold resources and wait for resources held by others, causing indefinite wait."⟩,
  ⟨"What is virtual memory?", ["RAM", "Extended memory using disk storage", "Cache memory", "ROM"], 1, "Virtual memory uses disk storage to extend available memory, allowing programs larger than physical RAM."⟩,
  ⟨"What is the difference between a process and a thread?", ["No difference", "Process has independent memory, thread shares memory with process", "Thread is faster", "Process is faster"], 1, "Processes have independent memory spaces, while threads within a process share the same memory space."⟩
]

def computerNetworksFlat : List Question := [
  ⟨"Which layer of OSI model handles routing?", ["Data Link Layer", "Network Layer", "Transport Layer", "Application Layer"], 1, "The Network Layer (Layer 3) is responsible for routing and logical addressing."⟩,
  ⟨"What is the purpose of TCP?", ["Unreliable data transfer", "Reliable, connection-oriented data transfer", "Fast transfer", "Broadcast"], 1, "TCP provides reliable, connection-oriented delivery of data with error checking."⟩,
  ⟨"What is the range of well-known ports?", ["0-255", "0-1023", "1024-65535", "49152-65535"], 1, "Well-known ports range from 0 to 1023 and are reserved for specific services."⟩,
  ⟨"Which protocol resolves IP addresses to MAC addresses?", ["DHCP", "DNS", "ARP", "IGMP"], 2, "ARP (Address Resolution Protocol) maps IP addresses to MAC addresses."⟩,
  ⟨"What is the maximum size of an IPv4 datagram?", ["256 bytes", "512 bytes", "1024 bytes", "65535 bytes"], 3, "Maximum IPv4 datagram size is 65535 bytes (16-bit length field)."⟩
]

def webDevelopmentFlat : List Question := [
  ⟨"What does HTML stand for?", ["Hypertext Markup Language", "High Tech Modern Language", "Home Tool Markup Language", "Hyperlinks and Text Markup Language"], 0, "HTML stands for Hypertext Markup Language, used to structure web content."⟩,
  ⟨"Which is not a valid HTML semantic tag?", ["<header>", "<article>", "<content>", "<section>"], 2, "<content> is not a valid semantic HTML tag. Use <article>, <section>, <header>, <footer>, etc."⟩,
  ⟨"What is the purpose of CSS?", ["Structure content", "Style and layout", "Server-side logic", "Database management"], 1, "CSS (Cascading Style Sheets) is used for styling and layout of web pages."⟩,
  ⟨"What is an API in web development?", ["A design pattern", "Interface for applications to communicate", "Database query", "CSS framework"], 1, "API (Application Programming Interface) allows applications to request and exchange data."⟩,
  ⟨"Which HTTP method is used to retrieve data?", ["POST", "GET", "DELETE", "PUT"], 1, "GET method is used to retrieve data from a server without modifying it."⟩
]

def cloudComputingFlat : List Question := [
  ⟨"What does IaaS stand for?", ["Infrastructure as a Service", "Integration as a Service", "Information as a Service", "Internet as a Service"], 0, "IaaS provides virtualized computing resources over the internet (e.g., AWS, Azure VMs)."⟩,
  ⟨"Which cloud service model provides the most control?", ["SaaS", "PaaS", "IaaS", "All are same"], 2, "IaaS provides the most control as users manage OS, middleware, and applications."⟩,
  ⟨"What is containerization?", ["Storing data in containers", "Packaging applications with dependencies", "Cloud storage", "Network isolation"], 1, "Containerization packages applications with their dependencies for consistent deployment."⟩,
  ⟨"Which service automatically scales resources?", ["Load Balancing", "Auto Scaling", "Caching", "Monitoring"], 1, "Auto Scaling automatically adjusts computing resources based on demand."⟩,
  ⟨"What is multi-tenancy in cloud computing?", ["Multiple clouds", "Multiple users sharing same resources", "Multiple databases", "Multiple servers"], 1, "Multi-tenancy allows multiple customers to share the same cloud resources safely."⟩
]

def devOpsFlat : List Question := [
  ⟨"What does CI/CD stand for?", ["Continuous Integration/Continuous Deployment", "Code Integration/Code Deployment", "Central Interface/Central Data", "Continuous Interface/Continuous Data"], 0, "CI/CD automates integration, testing, and deployment of code changes."⟩,
  ⟨"What is Docker used for?", ["Documentation", "Containerization of applications", "Database management", "Version control"], 1, "Docker is used for containerizing applications to ensure consistency across environments."⟩,
  ⟨"What is Kubernetes?", ["Container registry", "Container orchestration platform", "Monitoring tool", "CI/CD platform"], 1, "Kubernetes automates deployment, scaling, and management of containerized applications."⟩,
  ⟨"What is Infrastructure as Code (IaC)?", ["Coding standards", "Managing infrastructure using code", "Cloud API", "Database scripts"], 1, "IaC manages infrastructure through code (e.g., Terraform, CloudFormation) instead of manual processes."⟩,
  ⟨"Which is a popular configuration management tool?", ["Docker", "Kubernetes", "Ansible", "Git"], 2, "Ansible is an IaC and configuration management tool for automating infrastructure tasks."⟩
]

def mockQuestionsFlat : List (String × List Question) := [
  ("Data Structures", dataStructuresFlat),
  ("Algorithms", algorithmsFlat),
  ("Database Management", databaseManagementFlat),
  ("Operating Systems", operatingSystemsFlat),
  ("Computer Networks", computerNetworksFlat),
  ("Web Development", webDevelopmentFlat),
  ("Cloud Computing", cloudComputingFlat),
  ("DevOps", devOpsFlat)
]

/- Association-list lookup modelling JavaScript property access
   `obj[key]` (undefined when the key is absent). -/
def lookupKey {β : Type} (k : String) : List (String × β) → Option β
  | [] => none
  | (k', v) :: t => if k = k' then some v else lookupKey k t

/- Embeds
     mockQuestions[subject]?.[difficulty]
       || mockQuestions[subject]?.easy
       || mockQuestions['Data Structures'].easy
   (arrays are truthy in JavaScript, so `||` falls through exactly on
   undefined). -/
def selectBankList (subject difficulty : String) : List Question :=
  match lookupKey subject mockQuestionsBank with
  | some diffs =>
    match lookupKey difficulty diffs with
    | some l => l
    | none =>
      match lookupKey "easy" diffs with
      | some l => l
      | none => dataStructuresEasy
  | none => dataStructuresEasy

/- generateMockQuestions (primary revision):
     const questions = mockQuestions[subject]?.[difficulty]
       || mockQuestions[subject]?.easy || mockQuestions['Data Structures'].easy;
     return shuffleArray(questions).slice(0, 5); -/
def generateMockQuestions (subject difficulty : String)
    (rand : Nat → Nat) : List Question :=
  (shuffleArray rand (selectBankList subject difficulty)).take 5

/- generateMockQuestions (flat revision):
     return mockQuestions[subject] || mockQuestions['Data Structures']; -/
def generateMockQuestionsFlat (subject : String) : List Question :=
  (lookupKey subject mockQuestionsFlat).getD dataStructuresFlat

/- ### The remote generation call and the Question Provider

   `generateQuizQuestions` performs one HTTPS call and validates every
   candidate of the parsed response.  The transport and JSON-parsing
   outcome is abstracted as a `FetchOutcome`: every failure mode of the
   remote path (network rejection, non-2xx HTTP status, JSON parse
   failure, non-array top level) appears as its own variant, and a
   successfully parsed array of candidate objects as `parsed`. -/

inductive FetchOutcome where
  | networkError
  | httpError (msg : String)
  | parseError
  | notArray
  | parsed (cands : List Candidate)

inductive AcqError where
  | noApiKey
  | network
  | http (msg : String)
  | parse
  | badShape
  | validation (index : Nat) (e : VError)
deriving DecidableEq

/- `questions.map((q, index) => { ...throw on invalid... })`: the whole
   batch is rejected as soon as one candidate fails validation. -/
def validateAll : Nat → List Candidate → Except AcqError (List Question)
  | _, [] => .ok []
  | i, c :: cs =>
    match validateQuestion c with
    | .error e => .error (.validation i e)
    | .ok q =>
      match validateAll (i+1) cs with
      | .error e => .error e
      | .ok qs => .ok (q :: qs)

/- Embeds `generateQuizQuestions` (aiService.js lines 18-150): throws
   when the API key is missing, on any transport/parse failure, and when
   any candidate fails validation; otherwise returns the validated,
   normalized list (a length differing from the requested count is only
   a console warning, not an error). -/
def generateQuizQuestions (apiKeyPresent : Bool) (fetched : FetchOutcome) :
    Except AcqError (List Question) :=
  if !apiKeyPresent then .error .noApiKey
  else
    match fetched with
    | .networkError => .error .network
    | .httpError m => .error (.http m)
    | .parseError => .error .parse
    | .notArray => .error .badShape
    | .parsed cands => validateAll 0 cands

/- Embeds the acquisition step of `handleSelectSubject` (App.jsx lines
   23-40): try the remote call, and on any thrown error fall back to the
   mock bank.  This is the Question Provider operation the specification
   calls `acquireQuestions`. -/
def acquireQuestions (apiKeyPresent : Bool) (fetched : FetchOutcome)
    (subject difficulty : String) (rand : Nat → Nat) :
    Except String (List Question) :=
  match generateQuizQuestions apiKeyPresent fetched with
  | .ok qs => .ok qs
  | .error _ => .ok (generateMockQuestions subject difficulty rand)

/- ### The quiz session state machine (QuizDisplay.jsx, App.jsx)

   Component state of `QuizDisplay` plus the completion outcome held by
   `App`.  `selectedAnswers` is the JS object mapping question index to
   chosen option index, modelled as an association list where the most
   recent binding shadows older ones. -/

structure QuizState where
  currentQuestion : Nat
  score : Nat
  selectedAnswers : List (Nat × Nat)
  showResult : Bool
deriving DecidableEq

/- JS property read `selectedAnswers[i]`. -/
def answersLookup : List (Nat × Nat) → Nat → Option Nat
  | [], _ => none
  | (k, v) :: t, i => if i = k then some v else answersLookup t i

/- Truthiness of `selectedAnswers[currentQuestion]`: `undefined` and the
   number 0 are both falsy. -/
def jsFalsyNum : Option Nat → Bool
  | none => true
  | some n => n == 0

/- `isAnswered = selectedAnswers[currentQuestion] !== undefined`
   (QuizDisplay.jsx line 40). -/
def isAnswered (s : QuizState) : Bool :=
  (answersLookup s.selectedAnswers s.currentQuestion).isSome

/- `optionIndex === question.correctAnswer` for
   `question = questions[currentQuestion]`. -/
def answerMatches (qs : List Question) (idx optionIndex : Nat) : Bool :=
  match qs[idx]? with
  | some q => (optionIndex : ℚ) == q.correctAnswer
  | none => false

/- Raw event handler `handleAnswerClick` (QuizDisplay.jsx lines 16-28).
   Note the guard is `!selectedAnswers[currentQuestion]`, which also
   passes when the recorded answer is option 0. -/
def handleAnswerClick (qs : List Question) (s : QuizState)
    (optionIndex : Nat) : QuizState :=
  if jsFalsyNum (answersLookup s.selectedAnswers s.currentQuestion) then
    { currentQuestion := s.currentQuestion
      score :=
        if answerMatches qs s.currentQuestion optionIndex
        then s.score + 1 else s.score
      selectedAnswers := (s.currentQuestion, optionIndex) :: s.selectedAnswers
      showResult := true }
  else s

/- Raw event handler `handleNext` (QuizDisplay.jsx lines 30-38): either
   advances to the next question or reports completion through
   `onComplete({score, totalQuestions})`. -/
inductive NextOutcome where
  | continued (s : QuizState)
  | completed (score totalQuestions : Nat)
deriving DecidableEq

def handleNext (qs : List Question) (s : QuizState) : NextOutcome :=
  if s.currentQuestion < qs.length - 1 then
    .continued
      ⟨s.currentQuestion + 1, s.score, s.selectedAnswers, false⟩
  else
    .completed s.score qs.length

/- ### User-triggerable events

   The machine combines the `QuizDisplay` component state with the
   completion outcome that `App.handleQuizComplete` records
   (`quizResults`, with `appState` switching from 'quiz' to 'results').
   A user event is a click on a rendered control; a button whose
   `disabled` attribute is set cannot fire its onClick handler, so
   `step` applies the raw handler exactly under the conditions in which
   the DOM delivers the click: option buttons carry
   `disabled={isAnswered}` and the next button `disabled={!isAnswered}`
   (QuizDisplay.jsx lines 78 and 114). -/

inductive Screen where
  | quizScreen
  | resultsScreen
deriving DecidableEq

structure MachineState where
  screen : Screen
  quiz : QuizState
  quizResults : Option (Nat × Nat)
deriving DecidableEq

inductive Event where
  | answer (optionIndex : Nat)
  | next

/- Fresh component state: useState(0), useState(0), useState({}),
   useState(false). -/
def initMachine : MachineState := ⟨.quizScreen, ⟨0, 0, [], false⟩, none⟩

/- Number of rendered option buttons (`question.options.map(...)`). -/
def optionCount (qs : List Question) (idx : Nat) : Nat :=
  match qs[idx]? with
  | some q => q.options.length
  | none => 0

/- A click on option button `i`: deliverable only on the quiz screen, for
   a rendered button (`i < optionCount`), and only while the button is
   not disabled (`disabled={isAnswered}`). -/
def stepAnswer (qs : List Question) (m : MachineState) (i : Nat) :
    MachineState :=
  if m.screen = .quizScreen ∧ i < optionCount qs m.quiz.currentQuestion ∧
      isAnswered m.quiz = false then
    ⟨m.screen, handleAnswerClick qs m.quiz i, m.quizResults⟩
  else m

/- A click on the next/finish button (`disabled={!isAnswered}`); on
   completion `App.handleQuizComplete` stores the results object and
   switches to the results screen. -/
def stepNext (qs : List Question) (m : MachineState) : MachineState :=
  if m.screen = .quizScreen ∧ isAnswered m.quiz = true then
    match handleNext qs m.quiz with
    | .continued s' => ⟨m.screen, s', m.quizResults⟩
    | .completed sc tot => ⟨.resultsScreen, m.quiz, some (sc, tot)⟩
  else m

def step (qs : List Question) (m : MachineState) : Event → MachineState
  | .answer i => stepAnswer qs m i
  | .next => stepNext qs m

def runMachine (qs : List Question) (evs : List Event) : MachineState :=
  evs.foldl (step qs) initMachine

/- The derived score of an answers mapping: the number of question
   indices whose recorded answer equals the question's correct index. -/
def answeredCorrectly (qs : List Question) (ans : List (Nat × Nat))
    (k : Nat) : Bool :=
  match answersLookup ans k with
  | some a => answerMatches qs k a
  | none => false

def countCorrect (qs : List Question) (ans : List (Nat × Nat)) : Nat :=
  (List.range qs.length).countP (answeredCorrectly qs ans)

theorem answerMatches_lt {qs : List Question} {k a : Nat}
    (h : answerMatches qs k a = true) : k < qs.length := by
  unfold answerMatches at h
  cases hk : qs[k]? with
  | none => rw [hk] at h; simp at h
  | some q =>
    have := List.getElem?_eq_some_iff.1 hk
    exact this.1

theorem answersLookup_cons (ans : List (Nat × Nat)) (c i k : Nat) :
    answersLookup ((c, i) :: ans) k =
      if k = c then some i else answersLookup ans k := rfl

theorem countP_single (p : Nat → Bool) (n : Nat) :
    List.countP p [n] = if p n then 1 else 0 := by
  simp [List.countP_cons]

theorem countP_range_insert (qs : List Question) (ans : List (Nat × Nat))
    (c i : Nat) (hc : answersLookup ans c = none) : ∀ n : Nat,
    (List.range n).countP (answeredCorrectly qs ((c, i) :: ans)) =
      (List.range n).countP (answeredCorrectly qs ans) +
        (if c < n ∧ answerMatches qs c i = true then 1 else 0) := by
  intro n
  induction n with
  | zero => simp
  | succ n ih =>
    rw [List.range_succ, List.countP_append, List.countP_append, ih,
      countP_single, countP_single]
    by_cases hn : n = c
    · subst hn
      have hold : answeredCorrectly qs ans n = false := by
        simp [answeredCorrectly, hc]
      have hnew : answeredCorrectly qs ((n, i) :: ans) n =
          answerMatches qs n i := by
        simp [answeredCorrectly, answersLookup_cons]
      rw [hold, hnew]
      cases hm : answerMatches qs n i with
      | true => simp [Nat.lt_irrefl, Nat.lt_succ_self]
      | false => simp [Nat.lt_irrefl]
    · have heq : answeredCorrectly qs ((c, i) :: ans) n =
          answeredCorrectly qs ans n := by
        simp [answeredCorrectly, answersLookup_cons, hn]
      rw [heq]
      have hiff : (c < n + 1 ∧ answerMatches qs c i = true) ↔
          (c < n ∧ answerMatches qs c i = true) := by
        constructor
        · rintro ⟨h1a, h2a⟩
          refine ⟨?_, h2a⟩
          rcases Nat.lt_succ_iff_lt_or_eq.1 h1a with h | h
          · exact h
          · exact absurd h.symm hn
        · rintro ⟨h1a, h2a⟩; exact ⟨Nat.lt_succ_of_lt h1a, h2a⟩
      rw [if_congr hiff rfl rfl]
      omega

theorem countCorrect_insert (qs : List Question) (ans : List (Nat × Nat))
    (c i : Nat) (hc : answersLookup ans c = none) :
    countCorrect qs ((c, i) :: ans) =
      countCorrect qs ans + (if answerMatches qs c i then 1 else 0) := by
  unfold countCorrect
  rw [countP_range_insert qs ans c i hc qs.length]
  by_cases hm : answerMatches qs c i = true
  · have := answerMatches_lt hm
    simp [hm, this]
  · simp [hm]

/- The machine invariant: the running score is the derived score of the
   answers mapping, and `quizResults` is written exactly on completion,
   with the score at that moment and the question-list length. -/
def MInv (qs : List Question) (m : MachineState) : Prop :=
  m.quiz.score = countCorrect qs m.quiz.selectedAnswers ∧
  (m.screen = .resultsScreen →
    m.quizResults = some (m.quiz.score, qs.length)) ∧
  (m.screen = .quizScreen → m.quizResults = none)

theorem MInv_init (qs : List Question) : MInv qs initMachine := by
  refine ⟨?_, ?_, ?_⟩
  · show (0 : Nat) = countCorrect qs []
    unfold countCorrect
    symm
    rw [List.countP_eq_zero]
    intro a _
    simp [answeredCorrectly, answersLookup]
  · intro h; exact absurd h (by simp [initMachine])
  · intro _; rfl

theorem MInv_step (qs : List Question) (m : MachineState) (e : Event)
    (hm : MInv qs m) : MInv qs (step qs m e) := by
  obtain ⟨h1, h2, h3⟩ := hm
  cases e with
  | answer i =>
    show MInv qs (stepAnswer qs m i)
    unfold stepAnswer
    by_cases hg : m.screen = .quizScreen ∧
        i < optionCount qs m.quiz.currentQuestion ∧ isAnswered m.quiz = false
    · rw [if_pos hg]
      have hnone : answersLookup m.quiz.selectedAnswers
          m.quiz.currentQuestion = none := by
        have hh := hg.2.2
        unfold isAnswered at hh
        exact Option.not_isSome_iff_eq_none.1 (by simp [hh])
      refine ⟨?_, ?_, ?_⟩
      · show (handleAnswerClick qs m.quiz i).score =
          countCorrect qs (handleAnswerClick qs m.quiz i).selectedAnswers
        unfold handleAnswerClick
        rw [hnone]
        show (if answerMatches qs m.quiz.currentQuestion i
            then m.quiz.score + 1 else m.quiz.score) =
          countCorrect qs
            ((m.quiz.currentQuestion, i) :: m.quiz.selectedAnswers)
        rw [countCorrect_insert qs m.quiz.selectedAnswers
          m.quiz.currentQuestion i hnone, ← h1]
        by_cases hmatch : answerMatches qs m.quiz.currentQuestion i = true
        · simp [hmatch]
        · simp [hmatch]
      · intro hcontr
        have hms : m.screen = Screen.resultsScreen := hcontr
        rw [hg.1] at hms
        cases hms
      · intro _
        show m.quizResults = none
        exact h3 hg.1
    · rw [if_neg hg]
      exact ⟨h1, h2, h3⟩
  | next =>
    show MInv qs (stepNext qs m)
    unfold stepNext
    by_cases hg : m.screen = .quizScreen ∧ isAnswered m.quiz = true
    · rw [if_pos hg]
      cases hn : handleNext qs m.quiz with
      | continued s' =>
        have hsc : s'.score = m.quiz.score ∧
            s'.selectedAnswers = m.quiz.selectedAnswers := by
          unfold handleNext at hn
          by_cases hlt : m.quiz.currentQuestion < qs.length - 1
          · rw [if_pos hlt] at hn
            cases hn; exact ⟨rfl, rfl⟩
          · rw [if_neg hlt] at hn; cases hn
        refine ⟨?_, ?_, ?_⟩
        · show s'.score = countCorrect qs s'.selectedAnswers
          rw [hsc.1, hsc.2]; exact h1
        · intro hcontr
          have hms : m.screen = Screen.resultsScreen := hcontr
          rw [hg.1] at hms
          cases hms
        · intro _
          show m.quizResults = none
          exact h3 hg.1
      | completed sc tot =>
        have hsc : sc = m.quiz.score ∧ tot = qs.length := by
          unfold handleNext at hn
          by_cases hlt : m.quiz.currentQuestion < qs.length - 1
          · rw [if_pos hlt] at hn; cases hn
          · rw [if_neg hlt] at hn; cases hn; exact ⟨rfl, rfl⟩
        refine ⟨h1, ?_, ?_⟩
        · intro _
          show some (sc, tot) = some (m.quiz.score, qs.length)
          rw [hsc.1, hsc.2]
        · intro hcontr
          have hms : Screen.resultsScreen = Screen.quizScreen := hcontr
          cases hms
    · rw [if_neg hg]
      exact ⟨h1, h2, h3⟩

theorem MInv_run (qs : List Question) (evs : List Event) :
    MInv qs (runMachine qs evs) := by
  suffices h : ∀ (m : MachineState), MInv qs m →
      MInv qs (evs.foldl (step qs) m) by
    exact h initMachine (MInv_init qs)
  induction evs with
  | nil => intro m hm; exact hm
  | cons e t ih =>
    intro m hm
    exact ih (step qs m e) (MInv_step qs m e hm)

/- ### A heap of JavaScript arrays

   To state frame/effect properties of `shuffleArray` (the spread-copy
   `[...array]` followed by in-place swaps on the copy), arrays live in
   an explicit heap of cells addressed by references. -/

structure ArrayHeap (α : Type) where
  cells : List (List α)

def readArr {α} (h : ArrayHeap α) (r : Nat) : List α :=
  (h.cells[r]?).getD []

def writeArr {α} (h : ArrayHeap α) (r : Nat) (v : List α) : ArrayHeap α :=
  ⟨h.cells.set r v⟩

/- `[...array]` allocates a fresh cell holding a copy. -/
def allocArr {α} (h : ArrayHeap α) (v : List α) : ArrayHeap α × Nat :=
  (⟨h.cells ++ [v]⟩, h.cells.length)

/- The shuffle loop acting on the heap: every iteration reads the
   shuffled cell, swaps two positions and writes it back; no other cell
   is touched. -/
def fyLoopRef {α} (rand : Nat → Nat) (sref : Nat) :
    ArrayHeap α → Nat → ArrayHeap α
  | h, 0 => h
  | h, i+1 =>
    fyLoopRef rand sref
      (writeArr h sref
        (swapIdx (readArr h sref) (i+1) (rand (i+1) % (i+1+1)))) i

/- `shuffleArray` on the heap: copy the input cell into a fresh cell,
   run the loop on the fresh cell, return its reference. -/
def shuffleArrayRef {α} (rand : Nat → Nat) (h : ArrayHeap α) (r : Nat) :
    ArrayHeap α × Nat :=
  let copy := readArr h r
  let p := allocArr h copy
  (fyLoopRef rand p.2 p.1 (copy.length - 1), p.2)

theorem readArr_writeArr_ne {α} (h : ArrayHeap α) (r t : Nat)
    (v : List α) (hne : t ≠ r) : readArr (writeArr h r v) t = readArr h t := by
  unfold readArr writeArr
  rw [List.getElem?_set_ne (fun he => hne he.symm)]

theorem readArr_writeArr_self {α} (h : ArrayHeap α) (r : Nat) (v : List α)
    (hr : r < h.cells.length) : readArr (writeArr h r v) r = v := by
  unfold readArr writeArr
  rw [List.getElem?_set_self hr]
  rfl

theorem writeArr_length {α} (h : ArrayHeap α) (r : Nat) (v : List α) :
    (writeArr h r v).cells.length = h.cells.length :=
  List.length_set h.cells r v

theorem fyLoopRef_frame {α} (rand : Nat → Nat) (sref t : Nat)
    (hne : t ≠ sref) : ∀ (n : Nat) (h : ArrayHeap α),
    readArr (fyLoopRef rand sref h n) t = readArr h t := by
  intro n
  induction n with
  | zero => intro h; rfl
  | succ i ih =>
    intro h
    unfold fyLoopRef
    rw [ih]
    exact readArr_writeArr_ne h sref t _ hne

theorem fyLoopRef_length {α} (rand : Nat → Nat) (sref : Nat) :
    ∀ (n : Nat) (h : ArrayHeap α),
    (fyLoopRef rand sref h n).cells.length = h.cells.length := by
  intro n
  induction n with
  | zero => intro h; rfl
  | succ i ih =>
    intro h
    unfold fyLoopRef
    rw [ih]
    exact writeArr_length h sref _

theorem fyLoopRef_reads {α} (rand : Nat → Nat) (sref : Nat) :
    ∀ (n : Nat) (h : ArrayHeap α), sref < h.cells.length →
    readArr (fyLoopRef rand sref h n) sref =
      fisherYatesAux rand (readArr h sref) n := by
  intro n
  induction n with
  | zero => intro h _; rfl
  | succ i ih =>
    intro h hr
    unfold fyLoopRef fisherYatesAux
    rw [ih _ (by rw [writeArr_length]; exact hr),
      readArr_writeArr_self h sref _ hr]

/- shuffleArray never mutates its argument: the input cell is unchanged
   and the returned reference is a fresh one holding the pure shuffle of
   the input. -/
theorem shuffleArrayRef_spec {α} (rand : Nat → Nat) (h : ArrayHeap α)
    (r : Nat) (hr : r < h.cells.length) :
    (shuffleArrayRef rand h r).2 ≠ r ∧
    readArr (shuffleArrayRef rand h r).1 r = readArr h r ∧
    readArr (shuffleArrayRef rand h r).1 (shuffleArrayRef rand h r).2 =
      shuffleArray rand (readArr h r) := by
  unfold shuffleArrayRef allocArr
  refine ⟨?_, ?_, ?_⟩
  · show h.cells.length ≠ r
    omega
  · show readArr (fyLoopRef rand h.cells.length
        ⟨h.cells ++ [readArr h r]⟩ ((readArr h r).length - 1)) r = readArr h r
    rw [fyLoopRef_frame rand h.cells.length r (by omega)]
    unfold readArr
    simp only
    rw [List.getElem?_append_left hr]
  · show readArr (fyLoopRef rand h.cells.length
        ⟨h.cells ++ [readArr h r]⟩ ((readArr h r).length - 1))
        h.cells.length = shuffleArray rand (readArr h r)
    rw [fyLoopRef_reads rand h.cells.length _ _ (by simp)]
    have hread : readArr (⟨h.cells ++ [readArr h r]⟩ : ArrayHeap α)
        h.cells.length = readArr h r := by
      unfold readArr
      simp only
      rw [List.getElem?_concat_length]
      rfl
    rw [hread]
    rfl

/- ### Specification-side validator predicates

   Refinement predicates phrased after the specification's validator
   rules (§4.1), as amended to match the code: `text` must be a
   non-empty string (before trimming), `options` an array of exactly 4
   strings, `correctAnswer` a number in [0, 3] (not necessarily an
   integer), `explanation` a non-empty string (before trimming). -/

def specTextOk (c : Candidate) : Prop :=
  ∃ s, c.question = .str s ∧ s ≠ ""

def specOptionsArity (c : Candidate) : Prop :=
  ∃ l, c.options = .arr l ∧ l.length = 4

def specOptionsStrings (c : Candidate) : Prop :=
  ∀ l, c.options = .arr l → ∀ o ∈ l, o.isStr = true

def specCorrectAnswerOk (c : Candidate) : Prop :=
  ∃ x, c.correctAnswer = .num x ∧ 0 ≤ x ∧ x ≤ 3

def specExplanationOk (c : Candidate) : Prop :=
  ∃ s, c.explanation = .str s ∧ s ≠ ""

/- Normalization per the specification: trim the text, every option and
   the explanation; pass the correct index through unchanged. -/
def specNormalize (c : Candidate) : Question :=
  ⟨jsTrim c.question.strVal,
   c.options.arrVal.map (fun o => jsTrim o.strVal),
   c.correctAnswer.numVal,
   jsTrim c.explanation.strVal⟩

theorem specTextOk_iff (c : Candidate) :
    specTextOk c ↔ (c.question.isStr = true ∧ c.question.strVal ≠ "") := by
  unfold specTextOk
  cases hq : c.question <;>
    simp [JsVal.isStr, JsVal.strVal]

theorem specOptionsArity_iff (c : Candidate) :
    specOptionsArity c ↔
      (c.options.isArr = true ∧ c.options.arrVal.length = 4) := by
  unfold specOptionsArity
  cases ho : c.options <;>
    simp [JsVal.isArr, JsVal.arrVal]

theorem specOptionsStrings_iff (c : Candidate) :
    specOptionsStrings c ↔
      c.options.arrVal.any (fun o => !o.isStr) = false := by
  unfold specOptionsStrings
  cases ho : c.options with
  | arr l =>
    simp only [JsVal.arrVal, List.any_eq_false, JsVal.arr.injEq]
    constructor
    · intro h o hol
      have := h l rfl o hol
      simp [this]
    · intro h l' hl' o hol
      subst hl'
      have := h o hol
      simpa using this
  | str s => simp [JsVal.arrVal]
  | num x => simp [JsVal.arrVal]
  | boolean b => simp [JsVal.arrVal]
  | nullVal => simp [JsVal.arrVal]
  | undef => simp [JsVal.arrVal]

theorem specCorrectAnswerOk_iff (c : Candidate) :
    specCorrectAnswerOk c ↔ (c.correctAnswer.isNum = true ∧
      ¬ (c.correctAnswer.numVal < 0 ∨ 3 < c.correctAnswer.numVal)) := by
  unfold specCorrectAnswerOk
  cases hca : c.correctAnswer with
  | num x =>
    simp only [JsVal.isNum, JsVal.numVal, JsVal.num.injEq, true_and]
    constructor
    · rintro ⟨x', rfl, h0, h3⟩
      push_neg
      exact ⟨h0, h3⟩
    · intro h
      push_neg at h
      exact ⟨x, rfl, h.1, h.2⟩
  | str s => simp [JsVal.isNum]
  | arr l => simp [JsVal.isNum]
  | boolean b => simp [JsVal.isNum]
  | nullVal => simp [JsVal.isNum]
  | undef => simp [JsVal.isNum]

theorem specExplanationOk_iff (c : Candidate) :
    specExplanationOk c ↔
      (c.explanation.isStr = true ∧ c.explanation.strVal ≠ "") := by
  unfold specExplanationOk
  cases he : c.explanation <;>
    simp [JsVal.isStr, JsVal.strVal]

theorem validateQuestion_characterization (c : Candidate) :
    (¬ specTextOk c → validateQuestion c = .error .questionText) ∧
    (specTextOk c → ¬ specOptionsArity c →
      validateQuestion c = .error .optionsCount) ∧
    (specTextOk c → specOptionsArity c → ¬ specOptionsStrings c →
      validateQuestion c = .error .optionsString) ∧
    (specTextOk c → specOptionsArity c → specOptionsStrings c →
      ¬ specCorrectAnswerOk c →
      validateQuestion c = .error .correctAnswerRange) ∧
    (specTextOk c → specOptionsArity c → specOptionsStrings c →
      specCorrectAnswerOk c → ¬ specExplanationOk c →
      validateQuestion c = .error .explanationText) ∧
    (specTextOk c → specOptionsArity c → specOptionsStrings c →
      specCorrectAnswerOk c → specExplanationOk c →
      validateQuestion c = .ok (specNormalize c)) := by
  refine ⟨?_, ?_, ?_, ?_, ?_, ?_⟩
  · intro h1
    rw [specTextOk_iff] at h1
    unfold validateQuestion
    rw [if_pos h1]
  · intro h1 h2
    rw [specTextOk_iff] at h1
    rw [specOptionsArity_iff] at h2
    unfold validateQuestion
    rw [if_neg (by simpa using h1), if_pos h2]
  · intro h1 h2 h3
    rw [specTextOk_iff] at h1
    rw [specOptionsArity_iff] at h2
    rw [specOptionsStrings_iff] at h3
    have h3' : c.options.arrVal.any (fun o => !o.isStr) = true := by
      cases hb : c.options.arrVal.any (fun o => !o.isStr) with
      | false => exact absurd hb h3
      | true => rfl
    unfold validateQuestion
    rw [if_neg (by simpa using h1), if_neg (by simpa using h2),
      if_pos h3']
  · intro h1 h2 h3 h4
    rw [specTextOk_iff] at h1
    rw [specOptionsArity_iff] at h2
    rw [specOptionsStrings_iff] at h3
    rw [specCorrectAnswerOk_iff] at h4
    unfold validateQuestion
    rw [if_neg (by simpa using h1), if_neg (by simpa using h2),
      if_neg (by simp [h3]), if_pos h4]
  · intro h1 h2 h3 h4 h5
    rw [specTextOk_iff] at h1
    rw [specOptionsArity_iff] at h2
    rw [specOptionsStrings_iff] at h3
    rw [specCorrectAnswerOk_iff] at h4
    rw [specExplanationOk_iff] at h5
    unfold validateQuestion
    rw [if_neg (by simpa using h1), if_neg (by simpa using h2),
      if_neg (by simp [h3]), if_neg (by simpa using h4), if_pos h5]
  · intro h1 h2 h3 h4 h5
    rw [specTextOk_iff] at h1
    rw [specOptionsArity_iff] at h2
    rw [specOptionsStrings_iff] at h3
    rw [specCorrectAnswerOk_iff] at h4
    rw [specExplanationOk_iff] at h5
    unfold validateQuestion
    rw [if_neg (by simpa using h1), if_neg (by simpa using h2),
      if_neg (by simp [h3]), if_neg (by simpa using h4),
      if_neg (by simpa using h5)]
    rfl

theorem validateQuestion_ok_elim {c : Candidate} {q : Question}
    (h : validateQuestion c = .ok q) :
    (c.question.isStr = true ∧ c.question.strVal ≠ "") ∧
    (c.options.isArr = true ∧ c.options.arrVal.length = 4) ∧
    c.options.arrVal.any (fun o => !o.isStr) = false ∧
    (c.correctAnswer.isNum = true ∧
      ¬ (c.correctAnswer.numVal < 0 ∨ 3 < c.correctAnswer.numVal)) ∧
    (c.explanation.isStr = true ∧ c.explanation.strVal ≠ "") ∧
    q = specNormalize c := by
  unfold validateQuestion at h
  by_cases h1 : c.question.isStr = true ∧ c.question.strVal ≠ ""
  · rw [if_neg (by simpa using h1)] at h
    by_cases h2 : c.options.isArr = true ∧ c.options.arrVal.length = 4
    · rw [if_neg (by simpa using h2)] at h
      cases h3 : c.options.arrVal.any (fun o => !o.isStr) with
      | true => rw [if_pos h3] at h; simp at h
      | false =>
        rw [if_neg (by rw [h3]; exact Bool.false_ne_true)] at h
        by_cases h4 : c.correctAnswer.isNum = true ∧
            ¬ (c.correctAnswer.numVal < 0 ∨ 3 < c.correctAnswer.numVal)
        · rw [if_neg (by simpa using h4)] at h
          by_cases h5 : c.explanation.isStr = true ∧ c.explanation.strVal ≠ ""
          · rw [if_neg (by simpa using h5)] at h
            refine ⟨h1, h2, rfl, h4, h5, ?_⟩
            injection h with h'
            exact h'.symm
          · rw [if_pos h5] at h; simp at h
        · rw [if_pos h4] at h; simp at h
    · rw [if_pos h2] at h; simp at h
  · rw [if_pos h1] at h; simp at h

theorem validateQuestion_roundtrip (c : Candidate) (q : Question)
    (h : validateQuestion c = .ok q) (hq : q.question ≠ "")
    (he : q.explanation ≠ "") :
    validateQuestion q.toCandidate = .ok q := by
  obtain ⟨h1, h2, h3, h4, h5, hqeq⟩ := validateQuestion_ok_elim h
  have hchar := validateQuestion_characterization q.toCandidate
  have hlen : q.options.length = 4 := by
    rw [hqeq]
    show (c.options.arrVal.map (fun o => jsTrim o.strVal)).length = 4
    rw [List.length_map]
    exact h2.2
  have hs1 : specTextOk q.toCandidate := ⟨q.question, rfl, hq⟩
  have hs2 : specOptionsArity q.toCandidate :=
    ⟨q.options.map .str, rfl, by rw [List.length_map]; exact hlen⟩
  have hs3 : specOptionsStrings q.toCandidate := by
    intro l hl o ho
    injection hl with hl'
    subst hl'
    rcases List.mem_map.1 ho with ⟨t, _, rfl⟩
    rfl
  have hs4 : specCorrectAnswerOk q.toCandidate := by
    have hx := h4.2
    push_neg at hx
    refine ⟨q.correctAnswer, rfl, ?_, ?_⟩
    · rw [hqeq]; exact hx.1
    · rw [hqeq]; exact hx.2
  have hs5 : specExplanationOk q.toCandidate := ⟨q.explanation, rfl, he⟩
  rw [hchar.2.2.2.2.2 hs1 hs2 hs3 hs4 hs5]
  have hqq : jsTrim q.question = q.question := by
    rw [hqeq]; exact jsTrim_idem c.question.strVal
  have hee : jsTrim q.explanation = q.explanation := by
    rw [hqeq]; exact jsTrim_idem c.explanation.strVal
  have hopts : ∀ o ∈ q.options, jsTrim o = o := by
    intro o ho
    rw [hqeq] at ho
    have ho' : o ∈ c.options.arrVal.map (fun v => jsTrim v.strVal) := ho
    rcases List.mem_map.1 ho' with ⟨t, _, rfl⟩
    exact jsTrim_idem t.strVal
  congr 1
  obtain ⟨qq, qo, qca, qe⟩ := q
  show (⟨jsTrim qq, (qo.map JsVal.str).map (fun o => jsTrim o.strVal), qca,
    jsTrim qe⟩ : Question) = ⟨qq, qo, qca, qe⟩
  rw [Question.mk.injEq]
  refine ⟨hqq, ?_, rfl, hee⟩
  rw [List.map_map]
  have hco : ∀ o ∈ qo, (((fun o => jsTrim o.strVal) ∘ JsVal.str) o) = id o := by
    intro o ho
    show jsTrim o = o
    exact hopts o ho
  rw [List.map_congr_left hco, List.map_id]

/- ### Well-formedness of the static bank -/

def questionWellFormed (q : Question) : Bool :=
  q.question != "" && q.options.length == 4 &&
  decide (0 ≤ q.correctAnswer) && decide (q.correctAnswer ≤ 3) &&
  q.explanation != ""

theorem wellFormed_passes (q : Question) (h : questionWellFormed q = true) :
    (validateQuestion q.toCandidate).isOk = true := by
  simp only [questionWellFormed, Bool.and_eq_true, bne_iff_ne, ne_eq,
    beq_iff_eq, decide_eq_true_eq] at h
  obtain ⟨⟨⟨⟨hq, hlen⟩, h0⟩, h3⟩, he⟩ := h
  have hchar := validateQuestion_characterization q.toCandidate
  have hs1 : specTextOk q.toCandidate := ⟨q.question, rfl, hq⟩
  have hs2 : specOptionsArity q.toCandidate :=
    ⟨q.options.map .str, rfl, by rw [List.length_map]; exact hlen⟩
  have hs3 : specOptionsStrings q.toCandidate := by
    intro l hl o ho
    injection hl with hl'
    subst hl'
    rcases List.mem_map.1 ho with ⟨t, _, rfl⟩
    rfl
  have hs4 : specCorrectAnswerOk q.toCandidate :=
    ⟨q.correctAnswer, rfl, h0, h3⟩
  have hs5 : specExplanationOk q.toCandidate := ⟨q.explanation, rfl, he⟩
  rw [hchar.2.2.2.2.2 hs1 hs2 hs3 hs4 hs5]
  rfl

theorem bankWellFormed :
    mockQuestionsBank.all
      (fun p => p.2.all (fun p2 => p2.2.length == 5 &&
        p2.2.all questionWellFormed)) = true := by decide

theorem flatWellFormed :
    mockQuestionsFlat.all
      (fun p => p.2.length == 5 && p.2.all questionWellFormed) = true := by
  decide

theorem lookupKey_mem {β : Type} (k : String) (v : β) :
    ∀ l : List (String × β), lookupKey k l = some v → (k, v) ∈ l := by
  intro l
  induction l with
  | nil => intro h; simp [lookupKey] at h
  | cons p t ih =>
    intro h
    obtain ⟨k', v'⟩ := p
    unfold lookupKey at h
    by_cases hk : k = k'
    · rw [if_pos hk] at h
      injection h with h'
      subst h'
      subst hk
      exact List.mem_cons_self _ _
    · rw [if_neg hk] at h
      exact List.mem_cons_of_mem _ (ih h)

theorem bank_entry_facts (s d : String)
    (diffs : List (String × List Question)) (l : List Question)
    (hs : lookupKey s mockQuestionsBank = some diffs)
    (hd : lookupKey d diffs = some l) :
    l.length = 5 ∧ ∀ q ∈ l, questionWellFormed q = true := by
  have hm1 := lookupKey_mem s diffs mockQuestionsBank hs
  have hall := bankWellFormed
  rw [List.all_eq_true] at hall
  have h1 := hall _ hm1
  simp only at h1
  rw [List.all_eq_true] at h1
  have hm2 := lookupKey_mem d l diffs hd
  have h2 := h1 _ hm2
  simp only [Bool.and_eq_true, beq_iff_eq] at h2
  exact ⟨h2.1, List.all_eq_true.1 h2.2⟩

theorem flat_entry_facts (s : String) (l : List Question)
    (hs : lookupKey s mockQuestionsFlat = some l) :
    l.length = 5 ∧ ∀ q ∈ l, questionWellFormed q = true := by
  have hm1 := lookupKey_mem s l mockQuestionsFlat hs
  have hall := flatWellFormed
  rw [List.all_eq_true] at hall
  have h1 := hall _ hm1
  simp only [Bool.and_eq_true, beq_iff_eq] at h1
  exact ⟨h1.1, List.all_eq_true.1 h1.2⟩

theorem selectBankList_eq (s d : String)
    (diffs : List (String × List Question)) (l : List Question)
    (hs : lookupKey s mockQuestionsBank = some diffs)
    (hd : lookupKey d diffs = some l) :
    selectBankList s d = l := by
  unfold selectBankList
  rw [hs]
  show (match lookupKey d diffs with
    | some l' => l'
    | none =>
      match lookupKey "easy" diffs with
      | some l' => l'
      | none => dataStructuresEasy) = l
  rw [hd]

theorem selectBankList_unknown (s d : String)
    (hs : lookupKey s mockQuestionsBank = none) :
    selectBankList s d = dataStructuresEasy := by
  unfold selectBankList
  rw [hs]

theorem shuffleArray_length {α} (rand : Nat → Nat) (l : List α) :
    (shuffleArray rand l).length = l.length :=
  (shuffleArray_perm rand l).length_eq

/- The scripted end-to-end run: for every question in order, answer with
   its correct index, then advance. -/
def correctIndexAt (qs : List Question) (k : Nat) : Nat :=
  match qs[k]? with
  | some q => q.correctAnswer.num.toNat
  | none => 0

def scenarioEvents (qs : List Question) : List Event :=
  (List.range qs.length).foldr
    (fun k acc => Event.answer (correctIndexAt qs k) :: Event.next :: acc) []

/- ### Claim theorems -/

/-- C1: for every subject, difficulty and count, question acquisition
(remote attempt with fallback to the static bank) never fails: every
error raised inside the remote path (missing credential, HTTP failure,
parse failure, or a validation error on any candidate) is caught and
converted into a fallback to the Question Bank, and the operation always
returns a question list. -/
theorem c1_acquisition_never_fails (apiKeyPresent : Bool)
    (fetched : FetchOutcome) (subject difficulty : String)
    (rand : Nat → Nat) :
    (∃ qs, acquireQuestions apiKeyPresent fetched subject difficulty rand =
      .ok qs) ∧
    (∀ e, generateQuizQuestions apiKeyPresent fetched = .error e →
      acquireQuestions apiKeyPresent fetched subject difficulty rand =
        .ok (generateMockQuestions subject difficulty rand)) := by
  constructor
  · cases hg : generateQuizQuestions apiKeyPresent fetched with
    | ok qs =>
      exact ⟨qs, by unfold acquireQuestions; rw [hg]⟩
    | error e =>
      exact ⟨generateMockQuestions subject difficulty rand,
        by unfold acquireQuestions; rw [hg]⟩
  · intro e he
    unfold acquireQuestions
    rw [he]

theorem c1_witness :
    acquireQuestions false (.parsed []) "Algorithms" "hard" (fun _ => 1) =
      .ok (generateMockQuestions "Algorithms" "hard" (fun _ => 1)) :=
  (c1_acquisition_never_fails false (.parsed []) "Algorithms" "hard"
    (fun _ => 1)).2 .noApiKey rfl

/-- C2: evaluation at the failing input of the double-answer claim.  The
guard of handleAnswerClick is the JavaScript truthiness test
`!selectedAnswers[currentQuestion]`, which also passes when the recorded
answer is option 0: after a first AnswerQuestion with option 0 (recorded
answer 0, score 0), a second AnswerQuestion with option 1 on the same
question overwrites the recorded answer and increments the score —
contradicting the claim that the second call is a no-op, and
contradicting the component's own `isAnswered` test
(`!== undefined`), which disables further input. -/
theorem c2_second_answer_changes_state :
    handleAnswerClick [⟨"q", ["a", "b", "c", "d"], 1, "e"⟩]
      ⟨0, 0, [], false⟩ 0 = ⟨0, 0, [(0, 0)], true⟩ ∧
    handleAnswerClick [⟨"q", ["a", "b", "c", "d"], 1, "e"⟩]
      ⟨0, 0, [(0, 0)], true⟩ 1 = ⟨0, 1, [(0, 1), (0, 0)], true⟩ := by
  constructor
  · decide
  · decide

/-- C3: in every reachable results state (reachable through
user-deliverable events, i.e. clicks on enabled controls), the reported
score equals the number of question indices whose recorded answer equals
the question's correct index, and the reported total equals the number
of questions; in particular the end-to-end run over the 5 "Algorithms"
easy bank questions (remote path disabled), answering every question
with its correct index and advancing five times, ends on the results
screen with score 5 of 5. -/
theorem c3_results_score_correct :
    (∀ (qs : List Question) (evs : List Event),
      (runMachine qs evs).screen = .resultsScreen →
      (runMachine qs evs).quizResults =
        some (countCorrect qs (runMachine qs evs).quiz.selectedAnswers,
          qs.length)) ∧
    ((runMachine (generateMockQuestions "Algorithms" "easy" (fun _ => 0))
        (scenarioEvents (generateMockQuestions "Algorithms" "easy"
          (fun _ => 0)))).screen = .resultsScreen ∧
      (runMachine (generateMockQuestions "Algorithms" "easy" (fun _ => 0))
        (scenarioEvents (generateMockQuestions "Algorithms" "easy"
          (fun _ => 0)))).quizResults = some (5, 5)) := by
  refine ⟨?_, ?_, ?_⟩
  · intro qs evs hscreen
    have hinv := MInv_run qs evs
    rw [hinv.2.1 hscreen, hinv.1]
  · decide
  · decide

theorem c3_witness :
    (runMachine [⟨"q", ["a", "b", "c", "d"], 0, "e"⟩]
        [.answer 0, .next]).quizResults =
      some (countCorrect [⟨"q", ["a", "b", "c", "d"], 0, "e"⟩]
        (runMachine [⟨"q", ["a", "b", "c", "d"], 0, "e"⟩]
          [.answer 0, .next]).quiz.selectedAnswers, 1) :=
  c3_results_score_correct.1 [⟨"q", ["a", "b", "c", "d"], 0, "e"⟩]
    [.answer 0, .next] (by decide)

/-- C4: counterexample to the claim as stated.  The Validator accepts a
candidate whose question text is the whitespace-only string " "
(non-empty before trimming but empty after trimming, normalized to ""),
and accepts a candidate whose correctAnswer is the non-integer number
3/2; the claim says both must be rejected. -/
theorem c4_counterexample :
    validateQuestion ⟨.str " ", .arr [.str "a", .str "b", .str "c",
      .str "d"], .num 1, .str "e"⟩ = .ok ⟨"", ["a", "b", "c", "d"], 1, "e"⟩ ∧
    validateQuestion ⟨.str "qq", .arr [.str "a", .str "b", .str "c",
      .str "d"], .num (3/2), .str "ee"⟩ =
      .ok ⟨"qq", ["a", "b", "c", "d"], 3/2, "ee"⟩ := by
  constructor
  · rfl
  · have hchar := validateQuestion_characterization
      ⟨.str "qq", .arr [.str "a", .str "b", .str "c", .str "d"],
        .num (3/2), .str "ee"⟩
    have hs1 : specTextOk ⟨.str "qq", .arr [.str "a", .str "b", .str "c",
        .str "d"], .num (3/2), .str "ee"⟩ := ⟨"qq", rfl, by decide⟩
    have hs2 : specOptionsArity ⟨.str "qq", .arr [.str "a", .str "b",
        .str "c", .str "d"], .num (3/2), .str "ee"⟩ :=
      ⟨[.str "a", .str "b", .str "c", .str "d"], rfl, rfl⟩
    have hs3 : specOptionsStrings ⟨.str "qq", .arr [.str "a", .str "b",
        .str "c", .str "d"], .num (3/2), .str "ee"⟩ := by
      intro l hl o ho
      injection hl with hl'
      subst hl'
      simp only [List.mem_cons, List.not_mem_nil, or_false] at ho
      rcases ho with rfl | rfl | rfl | rfl <;> rfl
    have hs4 : specCorrectAnswerOk ⟨.str "qq", .arr [.str "a", .str "b",
        .str "c", .str "d"], .num (3/2), .str "ee"⟩ :=
      ⟨3/2, rfl, by norm_num, by norm_num⟩
    have hs5 : specExplanationOk ⟨.str "qq", .arr [.str "a", .str "b",
        .str "c", .str "d"], .num (3/2), .str "ee"⟩ := ⟨"ee", rfl, by decide⟩
    rw [hchar.2.2.2.2.2 hs1 hs2 hs3 hs4 hs5]
    rfl

/-- C4 (amended): the Validator applies its rules in order with the
first failure winning, and each failure identifies the offending field:
it rejects a question field that is missing, not a string, or the empty
string (a whitespace-only string passes and is trimmed to empty); then
an options field that is not an array of exactly 4 entries; then a
non-string entry among the options; then a correctAnswer that is not a
number or lies outside [0, 3] (any number inside the range is accepted,
integer or not); then an explanation that is missing, not a string, or
the empty string; on success it returns the normalized Question (fields
trimmed, correctAnswer passed through). -/
theorem c4_validator_field_checks (c : Candidate) :
    (¬ specTextOk c → validateQuestion c = .error .questionText) ∧
    (specTextOk c → ¬ specOptionsArity c →
      validateQuestion c = .error .optionsCount) ∧
    (specTextOk c → specOptionsArity c → ¬ specOptionsStrings c →
      validateQuestion c = .error .optionsString) ∧
    (specTextOk c → specOptionsArity c → specOptionsStrings c →
      ¬ specCorrectAnswerOk c →
      validateQuestion c = .error .correctAnswerRange) ∧
    (specTextOk c → specOptionsArity c → specOptionsStrings c →
      specCorrectAnswerOk c → ¬ specExplanationOk c →
      validateQuestion c = .error .explanationText) ∧
    (specTextOk c → specOptionsArity c → specOptionsStrings c →
      specCorrectAnswerOk c → specExplanationOk c →
      validateQuestion c = .ok (specNormalize c)) :=
  validateQuestion_characterization c

theorem c4_witness :
    validateQuestion ⟨.str "q3", .arr [.str "a", .str "b", .str "c"],
      .num 1, .str "e3"⟩ = .error .optionsCount :=
  (c4_validator_field_checks ⟨.str "q3", .arr [.str "a", .str "b",
    .str "c"], .num 1, .str "e3"⟩).2.1
    ⟨"q3", rfl, by decide⟩
    (by
      rintro ⟨l, hl, hlen⟩
      injection hl with hl'
      subst hl'
      simp at hlen)

/-- C5: counterexample to validation idempotency as stated.  A candidate
whose question is the whitespace-only string " " validates successfully
to a Question with empty text, but re-validating that output fails with
the question-text error, because the empty string is falsy. -/
theorem c5_counterexample :
    validateQuestion ⟨.str " ", .arr [.str "a", .str "b", .str "c",
      .str "d"], .num 2, .str "ex"⟩ =
      .ok ⟨"", ["a", "b", "c", "d"], 2, "ex"⟩ ∧
    validateQuestion (Question.toCandidate ⟨"", ["a", "b", "c", "d"], 2,
      "ex"⟩) = .error .questionText := by
  constructor
  · rfl
  · rfl

/-- C5 (amended): for every Question produced by a successful run of the
Validator whose normalized text and explanation are non-empty,
re-validating that output succeeds and yields the identical object
(same text, options, correctIndex and explanation). -/
theorem c5_validation_idempotent (c : Candidate) (q : Question)
    (h : validateQuestion c = .ok q) (hq : q.question ≠ "")
    (he : q.explanation ≠ "") :
    validateQuestion q.toCandidate = .ok q :=
  validateQuestion_roundtrip c q h hq he

theorem c5_witness :
    validateQuestion (Question.toCandidate
      ⟨"q5", ["a", "b", "c", "d"], 0, "e5"⟩) =
      .ok ⟨"q5", ["a", "b", "c", "d"], 0, "e5"⟩ :=
  c5_validation_idempotent
    ⟨.str "q5", .arr [.str "a", .str "b", .str "c", .str "d"], .num 0,
      .str "e5"⟩
    ⟨"q5", ["a", "b", "c", "d"], 0, "e5"⟩
    rfl (by decide) (by decide)

/-- C6: for every subject and difficulty known to the Question Bank,
acquiring questions with the remote path disabled (no API key) falls
back to the bank and returns exactly 5 Questions, each of which passes
the Validator and is an element of the bank entries for that subject
and difficulty; in the flat revision of the bank (no difficulty
subsets), the subject's full 5-entry list is returned as-is and every
entry passes the Validator. -/
theorem c6_bank_acquisition :
    (∀ (subject difficulty : String)
      (diffs : List (String × List Question)) (l : List Question)
      (rand : Nat → Nat) (fetched : FetchOutcome),
      lookupKey subject mockQuestionsBank = some diffs →
      lookupKey difficulty diffs = some l →
      acquireQuestions false fetched subject difficulty rand =
        .ok (generateMockQuestions subject difficulty rand) ∧
      (generateMockQuestions subject difficulty rand).length = 5 ∧
      ∀ q ∈ generateMockQuestions subject difficulty rand,
        (validateQuestion q.toCandidate).isOk = true ∧ q ∈ l) ∧
    (∀ (subject : String) (l : List Question),
      lookupKey subject mockQuestionsFlat = some l →
      generateMockQuestionsFlat subject = l ∧ l.length = 5 ∧
      ∀ q ∈ l, (validateQuestion q.toCandidate).isOk = true) := by
  constructor
  · intro s d diffs l rand f hs hd
    have hfacts := bank_entry_facts s d diffs l hs hd
    have hsel : selectBankList s d = l := selectBankList_eq s d diffs l hs hd
    have hmock : generateMockQuestions s d rand =
        (shuffleArray rand l).take 5 := by
      unfold generateMockQuestions
      rw [hsel]
    refine ⟨?_, ?_, ?_⟩
    · cases f <;> rfl
    · rw [hmock, List.length_take, shuffleArray_length, hfacts.1]
      rfl
    · intro q hq
      rw [hmock] at hq
      have hq2 : q ∈ shuffleArray rand l := List.take_subset 5 _ hq
      have hql : q ∈ l := ((shuffleArray_perm rand l).mem_iff).1 hq2
      exact ⟨wellFormed_passes q (hfacts.2 q hql), hql⟩
  · intro s l hs
    have hfacts := flat_entry_facts s l hs
    have heq : generateMockQuestionsFlat s = l := by
      unfold generateMockQuestionsFlat
      rw [hs]
      rfl
    exact ⟨heq, hfacts.1, fun q hq => wellFormed_passes q (hfacts.2 q hq)⟩

theorem c6_witness :
    (generateMockQuestions "Algorithms" "easy" (fun _ => 1)).length = 5 :=
  (c6_bank_acquisition.1 "Algorithms" "easy"
    [("easy", algorithmsEasy), ("medium", algorithmsMedium),
      ("hard", algorithmsHard)]
    algorithmsEasy (fun _ => 1) .networkError rfl rfl).2.1

/-- C7: the shuffle used by the fallback path produces a permutation of
its input (same length and same multiset of elements), for every random
source and every input list, and the fallback selection step is exactly
a shuffle of the selected bank list followed by taking the first 5
entries. -/
theorem c7_shuffle_permutation :
    (∀ (α : Type) (rand : Nat → Nat) (l : List α),
      List.Perm (shuffleArray rand l) l ∧
      (shuffleArray rand l).length = l.length) ∧
    (∀ (subject difficulty : String) (rand : Nat → Nat),
      generateMockQuestions subject difficulty rand =
        (shuffleArray rand (selectBankList subject difficulty)).take 5) :=
  ⟨fun _ rand l => ⟨shuffleArray_perm rand l, shuffleArray_length rand l⟩,
    fun _ _ _ => rfl⟩

/-- C8: counterexample to the claim as stated.  In an InQuiz state whose
current question has no recorded answer (isAnswered is false), invoking
the raw handleNext handler is not a no-op: the handler performs no
answered-check of its own and increments currentQuestion (only the
rendered button's disabled attribute prevents this in the UI). -/
theorem c8_counterexample :
    isAnswered ⟨0, 0, [], false⟩ = false ∧
    handleNext
      [⟨"q1", ["a", "b", "c", "d"], 0, "e1"⟩,
        ⟨"q2", ["a", "b", "c", "d"], 1, "e2"⟩]
      ⟨0, 0, [], false⟩ = .continued ⟨1, 0, [], false⟩ := by
  constructor
  · decide
  · decide

/-- C8 (amended): when the current question has no recorded answer, an
Advance is rejected at the level of user-deliverable events: the next
button is rendered with disabled set (`disabled={!isAnswered}`), so the
click cannot fire and the machine state is unchanged; the raw handler
itself performs no answered-check. -/
theorem c8_advance_guard (qs : List Question) (m : MachineState)
    (h : isAnswered m.quiz = false) : step qs m .next = m := by
  show stepNext qs m = m
  unfold stepNext
  have hng : ¬ (m.screen = .quizScreen ∧ isAnswered m.quiz = true) := by
    rintro ⟨-, h2⟩
    rw [h] at h2
    exact Bool.false_ne_true h2
  rw [if_neg hng]

theorem c8_witness :
    step [⟨"q8", ["a", "b", "c", "d"], 2, "e8"⟩] initMachine .next =
      initMachine :=
  c8_advance_guard [⟨"q8", ["a", "b", "c", "d"], 2, "e8"⟩] initMachine
    (by decide)

/-- C9: for every subject that is not a key of the Question Bank, the
fallback resolves to the default subject's entries (the Data Structures
easy list in the difficulty-keyed bank, the Data Structures list in the
flat bank) rather than failing, and the result is non-empty (exactly 5
questions in the difficulty-keyed revision). -/
theorem c9_unknown_subject_fallback (subject difficulty : String)
    (rand : Nat → Nat)
    (hs : lookupKey subject mockQuestionsBank = none)
    (hf : lookupKey subject mockQuestionsFlat = none) :
    generateMockQuestions subject difficulty rand =
      (shuffleArray rand dataStructuresEasy).take 5 ∧
    (generateMockQuestions subject difficulty rand).length = 5 ∧
    generateMockQuestions subject difficulty rand ≠ [] ∧
    generateMockQuestionsFlat subject = dataStructuresFlat ∧
    generateMockQuestionsFlat subject ≠ [] := by
  have hsel : selectBankList subject difficulty = dataStructuresEasy :=
    selectBankList_unknown subject difficulty hs
  have hmock : generateMockQuestions subject difficulty rand =
      (shuffleArray rand dataStructuresEasy).take 5 := by
    unfold generateMockQuestions
    rw [hsel]
  have hlen : (generateMockQuestions subject difficulty rand).length = 5 := by
    rw [hmock, List.length_take, shuffleArray_length]
    rfl
  have hflat : generateMockQuestionsFlat subject = dataStructuresFlat := by
    unfold generateMockQuestionsFlat
    rw [hf]
    rfl
  refine ⟨hmock, hlen, ?_, hflat, ?_⟩
  · intro hnil
    rw [hnil] at hlen
    simp at hlen
  · rw [hflat]
    intro hnil
    simp [dataStructuresFlat] at hnil

theorem c9_witness :
    generateMockQuestionsFlat "Quantum Basketry" = dataStructuresFlat ∧
    (generateMockQuestions "Quantum Basketry" "easy"
      (fun _ => 2)).length = 5 :=
  ⟨(c9_unknown_subject_fallback "Quantum Basketry" "easy" (fun _ => 2)
      rfl rfl).2.2.2.1,
    (c9_unknown_subject_fallback "Quantum Basketry" "easy" (fun _ => 2)
      rfl rfl).2.1⟩

/-- C10: shuffleArray is pure with respect to its argument: on the heap
model, the call allocates a fresh cell (the returned reference differs
from the input reference), leaves the input cell unchanged, and the
fresh cell holds exactly the pure shuffle of the input. -/
theorem c10_shuffle_pure {α : Type} (rand : Nat → Nat) (h : ArrayHeap α)
    (r : Nat) (hr : r < h.cells.length) :
    (shuffleArrayRef rand h r).2 ≠ r ∧
    readArr (shuffleArrayRef rand h r).1 r = readArr h r ∧
    readArr (shuffleArrayRef rand h r).1 (shuffleArrayRef rand h r).2 =
      shuffleArray rand (readArr h r) :=
  shuffleArrayRef_spec rand h r hr

theorem c10_witness :
    (shuffleArrayRef (fun _ => 0) (⟨[[1, 2, 3]]⟩ : ArrayHeap Nat) 0).2 ≠ 0 ∧
    readArr (shuffleArrayRef (fun _ => 0)
      (⟨[[1, 2, 3]]⟩ : ArrayHeap Nat) 0).1 0 =
      readArr (⟨[[1, 2, 3]]⟩ : ArrayHeap Nat) 0 ∧
    readArr (shuffleArrayRef (fun _ => 0)
        (⟨[[1, 2, 3]]⟩ : ArrayHeap Nat) 0).1
        (shuffleArrayRef (fun _ => 0) (⟨[[1, 2, 3]]⟩ : ArrayHeap Nat) 0).2 =
      shuffleArray (fun _ => 0) (readArr (⟨[[1, 2, 3]]⟩ : ArrayHeap Nat) 0) :=
  c10_shuffle_pure (fun _ => 0) ⟨[[1, 2, 3]]⟩ 0 (by decide)

end QuizApp
